import Mathlib

/-!
Verification of the response validation / shape-normalization layer of the
`sharepointlib` repository (`sharepointlib/models.py`, pydantic v1 models) and of
the response-handling parts of the dispatcher (`sharepointlib/sharepoint.py`).

The Python models are pydantic v1 `BaseModel` classes.  The embedding follows
pydantic v1 semantics for the constructs these models use:

* fields are validated in declaration order; the `values` argument handed to a
  validator contains exactly the previously validated fields (by python field
  name), successes only;
* a field with an explicit alias reads the raw input under the alias, a field
  without an alias reads the raw input under its own name;
* a required field that is absent yields a "field required" error, an explicit
  JSON `null` for a required field yields a "none is not an allowed value" error;
* a field declared with default `None` accepts a missing key and an explicit
  `null` (pydantic v1 sets `allow_none` for such fields);
* `str` fields coerce numbers and booleans via `str(...)`, `int` fields accept
  booleans and numeric strings via `int(...)`, `dict` fields require a mapping,
  `datetime` fields are parsed by pydantic v1 `parse_datetime`;
* a `ValueError`/`TypeError` raised inside a `@validator` is recorded as an
  error for that field; any other exception (e.g. `KeyError` from `values["name"]`)
  is NOT caught by pydantic v1 and aborts the whole validation;
* field errors are collected for all fields and reported together;
  `parse_obj_as(list[Model], ...)` validates every member and aggregates all
  member errors, each tagged with the member index.

JSON numbers are modelled as integers (`Int`); no claim involves fractional
numbers.  Error values record the python field name of the offending field.
-/

namespace Sharepointlib

/-- JSON values as decoded by `response.json()`.  Numbers are restricted to
integers; the claims under verification never involve fractional values. -/
inductive Json where
  | null
  | str (s : String)
  | num (n : Int)
  | bool (b : Bool)
  | obj (fields : List (String × Json))
  | arr (elems : List Json)

/-- Lookup in a python dict modelled as an association list (JSON objects have
unique keys, so first-match lookup is the dict lookup). -/
def lookupKey {β : Type} (k : String) : List (String × β) → Option β
  | [] => none
  | (k', v) :: rest => if k' = k then some v else lookupKey k rest

/-- Numeric value of a list of decimal digit characters. -/
def natOfDigits (ds : List Char) : Nat :=
  ds.foldl (fun a c => a * 10 + (c.toNat - 48)) 0

/-- Python `int(s)` restricted to optionally signed decimal strings (leading
`+`/whitespace and underscores accepted by python are not modelled; no claim
involves them). -/
def pyIntOfString? (s : String) : Option Int :=
  match s.data with
  | [] => none
  | '-' :: ds =>
    if ds ≠ [] ∧ ds.all (·.isDigit) then some (-(natOfDigits ds : Int)) else none
  | ds =>
    if ds.all (·.isDigit) then some (natOfDigits ds : Int) else none

/-- Python `s.split(sep)` for a single-character separator, over the character
list of the string.  Empty segments are kept, as in python. -/
def splitOnChar (c : Char) : List Char → List (List Char)
  | [] => [[]]
  | x :: xs =>
    let r := splitOnChar c xs
    if x = c then [] :: r
    else
      match r with
      | h :: t => (x :: h) :: t
      | [] => [[x]]

/-- Python `key in xs` for a list `xs`, where the probe is a string: true iff
some element equals the string. -/
def jsonStrMem (key : String) : List Json → Bool
  | [] => false
  | .str s :: rest => s = key || jsonStrMem key rest
  | _ :: rest => jsonStrMem key rest

/-! ## Datetimes

pydantic v1 `parse_datetime` accepts a `datetime` instance, a number (unix
seconds), or a string; a string that `float(...)` accepts is treated as unix
seconds, any other string must match pydantic's `datetime_re` regular
expression and the matched parts must form a valid `datetime.datetime`.
Parsed datetimes are kept structured; unix-seconds datetimes are kept
symbolic (no claim compares a string-parsed datetime with a numeric one, so
the exact calendar value of a unix timestamp is never needed). -/

/-- The components of a string-parsed datetime: date, time, microseconds and
timezone offset in minutes (`none` when the string carries no offset). -/
structure DTParts where
  year : Nat
  month : Nat
  day : Nat
  hour : Nat
  minute : Nat
  second : Nat
  microsecond : Nat
  tzOffsetMinutes : Option Int
deriving DecidableEq

/-- A python `datetime.datetime` as produced by pydantic v1 `parse_datetime`:
parsed from an ISO-like string, obtained from integer unix seconds, or
obtained from a non-integer float-parseable string (kept symbolically as the
string; no claim compares datetimes across differently-written inputs, so the
coarser identification — distinct strings denoting equal floats get distinct
model values — is never relied on). -/
inductive DateTime where
  | parts (p : DTParts)
  | fromUnixSeconds (n : Int)
  | fromUnixFloat (s : String)
deriving DecidableEq

/-- Take greedily up to `max` decimal digits from the front of a character
list, returning them together with the rest. -/
def takeDigits : Nat → List Char → List Char × List Char
  | 0, cs => ([], cs)
  | _ + 1, [] => ([], [])
  | n + 1, c :: cs =>
    if c.isDigit then
      let (ds, rest) := takeDigits n cs
      (c :: ds, rest)
    else ([], c :: cs)

/-- Gregorian leap year, as used by `datetime.datetime`. -/
def isLeapYear (y : Nat) : Bool :=
  y % 4 == 0 && (y % 100 != 0 || y % 400 == 0)

/-- Days in a month, as validated by the `datetime.datetime` constructor. -/
def daysInMonth (y m : Nat) : Nat :=
  if m = 2 then (if isLeapYear y then 29 else 28)
  else if m = 4 ∨ m = 6 ∨ m = 9 ∨ m = 11 then 30
  else 31

/-- Parse the timezone suffix of pydantic's `datetime_re`:
`Z | [+-]\d{2}(:?\d{2})?`, at the very end of the string.  Returns the offset
in minutes.  `none` in the first component means no suffix was present. -/
def parseTZ : List Char → Option (Option Int × List Char)
  | [] => some (none, [])
  | 'Z' :: rest => if rest = [] then some (some 0, []) else none
  | c :: rest =>
    if c = '+' ∨ c = '-' then
      let sign : Int := if c = '+' then 1 else -1
      let (hh, r1) := takeDigits 2 rest
      if hh.length = 2 then
        match r1 with
        | [] => some (some (sign * (natOfDigits hh * 60 : Nat)), [])
        | ':' :: r2 =>
          let (mm, r3) := takeDigits 2 r2
          if mm.length = 2 ∧ r3 = [] then
            some (some (sign * (natOfDigits hh * 60 + natOfDigits mm : Nat)), [])
          else none
        | _ =>
          let (mm, r3) := takeDigits 2 r1
          if mm.length = 2 ∧ r3 = [] then
            some (some (sign * (natOfDigits hh * 60 + natOfDigits mm : Nat)), [])
          else none
      else none
    else none

/-- Parse the optional seconds-and-microseconds part of `datetime_re`:
`(:(\d{1,2})(\.(\d{1,6})\d{0,6})?)?`.  The captured microsecond digits are
right-padded to six digits (`ljust(6, "0")` in pydantic v1). -/
def parseSecondsPart : List Char → Option (Nat × Nat × List Char)
  | ':' :: rest =>
    let (ss, r1) := takeDigits 2 rest
    if ss.length ≥ 1 then
      match r1 with
      | '.' :: r2 =>
        let (ms, r3) := takeDigits 6 r2
        if ms.length ≥ 1 then
          let (_, r4) := takeDigits 6 r3
          match r4 with
          | c :: _ => if c.isDigit then none else some (natOfDigits ss, natOfDigits (ms ++ List.replicate (6 - ms.length) '0'), r4)
          | [] => some (natOfDigits ss, natOfDigits (ms ++ List.replicate (6 - ms.length) '0'), [])
        else none
      | _ => some (natOfDigits ss, 0, r1)
    else none
  | cs => some (0, 0, cs)

/-- Match pydantic v1 `datetime_re` against a string and validate the parts as
the `datetime.datetime` constructor does (calendar ranges, timezone offset
strictly below 24 hours). -/
def parseDateTimeString (s : String) : Option DTParts := do
  let cs := s.data
  let (ys, r1) := takeDigits 4 cs
  if ys.length ≠ 4 then none else
  match r1 with
  | '-' :: r2 =>
    let (mos, r3) := takeDigits 2 r2
    if mos.length < 1 then none else
    match r3 with
    | '-' :: r4 =>
      let (ds, r5) := takeDigits 2 r4
      if ds.length < 1 then none else
      match r5 with
      | sep :: r6 =>
        if sep ≠ 'T' ∧ sep ≠ ' ' then none else
        let (hs, r7) := takeDigits 2 r6
        if hs.length < 1 then none else
        match r7 with
        | ':' :: r8 =>
          let (mins, r9) := takeDigits 2 r8
          if mins.length < 1 then none else do
          let (sec, micro, r10) ← parseSecondsPart r9
          let (tz, _) ← parseTZ r10
          let year := natOfDigits ys
          let month := natOfDigits mos
          let day := natOfDigits ds
          let hour := natOfDigits hs
          let minute := natOfDigits mins
          if 1 ≤ year ∧ 1 ≤ month ∧ month ≤ 12 ∧ 1 ≤ day ∧ day ≤ daysInMonth year month
              ∧ hour ≤ 23 ∧ minute ≤ 59 ∧ sec ≤ 59
              ∧ (match tz with | none => true | some o => o.natAbs < 1440 : Bool) = true then
            some ⟨year, month, day, hour, minute, sec, micro, tz⟩
          else none
        | _ => none
      | [] => none
    | _ => none
  | _ => none

/-- The whitespace characters Python strips around a `float(...)` string. -/
def isPySpace (c : Char) : Bool :=
  c = ' ' ∨ c = '\t' ∨ c = '\n' ∨ c = '\r' ∨ c = Char.ofNat 11 ∨ c = Char.ofNat 12

/-- After a leading digit, consume the rest of a Python digit group
(`digit (('_')? digit)*`): underscores are allowed only between digits. -/
def eatDigitRest : List Char → List Char
  | '_' :: c :: cs => if c.isDigit then eatDigitRest cs else '_' :: c :: cs
  | c :: cs => if c.isDigit then eatDigitRest cs else c :: cs
  | [] => []

/-- Consume a Python digit group (`digit (('_')? digit)*`) from the front;
`none` when there is no leading digit. -/
def eatDigitGroup : List Char → Option (List Char)
  | c :: cs => if c.isDigit then some (eatDigitRest cs) else none
  | [] => none

/-- Consume the mantissa of a Python float literal:
`digits ['.' [digits]] | '.' digits`. -/
def pyFloatMantissa (cs : List Char) : Option (List Char) :=
  match eatDigitGroup cs with
  | some rest =>
    match rest with
    | '.' :: rest2 =>
      match eatDigitGroup rest2 with
      | some rest3 => some rest3
      | none => some rest2
    | _ => some rest
  | none =>
    match cs with
    | '.' :: rest =>
      match eatDigitGroup rest with
      | some rest2 => some rest2
      | none => none
    | _ => none

/-- Consume an optional exponent (`('e'|'E') sign? digits`); when the next
character does not start an exponent the input is returned unchanged. -/
def pyFloatExponent : List Char → Option (List Char)
  | c :: cs =>
    if c = 'e' ∨ c = 'E' then
      let cs2 := match cs with
        | s :: rest => if s = '+' ∨ s = '-' then rest else s :: rest
        | [] => []
      match eatDigitGroup cs2 with
      | some rest => some rest
      | none => none
    else some (c :: cs)
  | [] => some []

/-- ASCII lower-casing, for the case-insensitive `inf`/`infinity` forms. -/
def lowerAscii (c : Char) : Char :=
  if 'A' ≤ c ∧ c ≤ 'Z' then Char.ofNat (c.toNat + 32) else c

/-- Whether Python `float(s)` succeeds AND the resulting timestamp yields a
datetime: surrounding whitespace is stripped, then an optional sign followed
by `inf`/`infinity` (any case; pydantic v1 `from_unix_seconds` clamps these
to `datetime.max`/`datetime.min`) or a float literal with optional
single-underscore digit separators and optional exponent.  `nan` is also
accepted by `float(...)`, but `from_unix_seconds` then raises a `ValueError`
(from `timedelta`), which pydantic catches as the same field error as an
unparseable string — so `nan` is deliberately not in this predicate. -/
def pyFloatAccepts (s : String) : Bool :=
  let cs := ((s.data.dropWhile isPySpace).reverse.dropWhile isPySpace).reverse
  let cs2 := match cs with
    | c :: rest => if c = '+' ∨ c = '-' then rest else c :: rest
    | [] => []
  let lower := cs2.map lowerAscii
  if lower = "inf".data ∨ lower = "infinity".data then true
  else
    match pyFloatMantissa cs2 with
    | some rest =>
      match pyFloatExponent rest with
      | some [] => true
      | _ => false
    | none => false

/-- pydantic v1 `parse_datetime` over a JSON value.  Numbers are unix
seconds; a string is first tried as a number (`get_numeric` uses
`float(...)`) — integer-valued decimal strings are identified with the
corresponding integer timestamp, other float-parseable strings are kept
symbolically — and otherwise must match `datetime_re`.  `error` is pydantic's
`DateTimeError` ("invalid datetime format"); non-string non-numeric values
raise a `TypeError` inside the parser, which pydantic catches and also turns
into a field error. -/
def parse_datetime : Json → Except Unit DateTime
  | .num n => .ok (.fromUnixSeconds n)
  | .bool b => .ok (.fromUnixSeconds (if b then 1 else 0))
  | .str s =>
    match pyIntOfString? s with
    | some n => .ok (.fromUnixSeconds n)
    | none =>
      if pyFloatAccepts s then .ok (.fromUnixFloat s)
      else
        match parseDateTimeString s with
        | some p => .ok (.parts p)
        | none => .error ()
  | _ => .error ()

/-! ## Field validation

pydantic v1 validates fields in declaration order and collects one error per
failing field; errors are reported together in a single `ValidationError`.
Error values carry the python field name of the offending field. -/

/-- One pydantic v1 field error. -/
inductive ValErr where
  | missing (field : String)          -- "field required"
  | noneNotAllowed (field : String)   -- "none is not an allowed value"
  | strType (field : String)          -- "str type expected"
  | intType (field : String)          -- "value is not a valid integer"
  | dictType (field : String)         -- "value is not a valid dict"
  | datetimeType (field : String)     -- "invalid datetime format"
  | validatorRaised (field : String)  -- ValueError/TypeError raised in a @validator
  | notADict                          -- a list member that is not a mapping
deriving DecidableEq

/-- A python exception that pydantic v1 does not catch (it aborts the whole
validation instead of producing a field error). -/
inductive PyExc where
  | keyError
  | typeError
deriving DecidableEq

/-- Outcome of validating one raw object against a model: either a validated
record, a `ValidationError` carrying the collected field errors (in field
declaration order), or an uncaught python exception. -/
inductive VErr where
  | fieldErrors (errs : List ValErr)
  | uncaught (e : PyExc)
deriving DecidableEq

/-- pydantic v1 `str` field validation: strings pass through, numbers and
booleans are coerced with `str(...)`, anything else is a type error. -/
def validateStr : Json → Option String
  | .str s => some s
  | .num n => some (toString n)
  | .bool b => some (if b then "True" else "False")
  | _ => none

/-- pydantic v1 `int` field validation: integers pass through, booleans become
0/1, decimal strings are parsed with `int(...)`, anything else is an error. -/
def validateInt : Json → Option Int
  | .num n => some n
  | .bool b => some (if b then 1 else 0)
  | .str s => pyIntOfString? s
  | _ => none

/-- pydantic v1 `dict` field validation: only a mapping is accepted.  (The
`dict(...)` coercion of key/value pair sequences is not exercised by any Graph
response shape and is not modelled.) -/
def validateDict : Json → Option (List (String × Json))
  | .obj fs => some fs
  | _ => none

/-- A required `str` field read from the raw mapping under `key` (the alias,
or the field name when the field has no alias). -/
def reqStrField (raw : List (String × Json)) (key fieldName : String) :
    Except ValErr String :=
  match lookupKey key raw with
  | none => .error (.missing fieldName)
  | some .null => .error (.noneNotAllowed fieldName)
  | some j =>
    match validateStr j with
    | some s => .ok s
    | none => .error (.strType fieldName)

/-- An optional (`default None`) `str` field: a missing key and an explicit
`null` both give `None`. -/
def optStrField (raw : List (String × Json)) (key fieldName : String) :
    Except ValErr (Option String) :=
  match lookupKey key raw with
  | none => .ok none
  | some .null => .ok none
  | some j =>
    match validateStr j with
    | some s => .ok (some s)
    | none => .error (.strType fieldName)

/-- An optional (`default None`) `int` field. -/
def optIntField (raw : List (String × Json)) (key fieldName : String) :
    Except ValErr (Option Int) :=
  match lookupKey key raw with
  | none => .ok none
  | some .null => .ok none
  | some j =>
    match validateInt j with
    | some n => .ok (some n)
    | none => .error (.intType fieldName)

/-- An optional (`default None`) `dict` field. -/
def optDictField (raw : List (String × Json)) (key fieldName : String) :
    Except ValErr (Option (List (String × Json))) :=
  match lookupKey key raw with
  | none => .ok none
  | some .null => .ok none
  | some j =>
    match validateDict j with
    | some fs => .ok (some fs)
    | none => .error (.dictType fieldName)

/-- A required `datetime` field. -/
def reqDTField (raw : List (String × Json)) (key fieldName : String) :
    Except ValErr DateTime :=
  match lookupKey key raw with
  | none => .error (.missing fieldName)
  | some .null => .error (.noneNotAllowed fieldName)
  | some j =>
    match parse_datetime j with
    | .ok d => .ok d
    | .error _ => .error (.datetimeType fieldName)

/-- An optional (`default None`) `datetime` field. -/
def optDTField (raw : List (String × Json)) (key fieldName : String) :
    Except ValErr (Option DateTime) :=
  match lookupKey key raw with
  | none => .ok none
  | some .null => .ok none
  | some j =>
    match parse_datetime j with
    | .ok d => .ok (some d)
    | .error _ => .error (.datetimeType fieldName)

/-- Validation of an `Optional[str]`-typed value returned by a `@validator`
(the value a pre-validator returns still goes through the field's type
validation). -/
def optStrOfJson (fieldName : String) : Json → Except ValErr (Option String)
  | .null => .ok none
  | j =>
    match validateStr j with
    | some s => .ok (some s)
    | none => .error (.strType fieldName)

/-- The python value stored for a validated field in the `values` dict that
pydantic v1 passes to later validators. -/
inductive PyVal where
  | vNone
  | vStr (s : String)
  | vInt (n : Int)
  | vDict (fs : List (String × Json))
  | vDT (d : DateTime)

/-- Python `values.get(k)`: `None` both for a missing key and for a stored
`None`. -/
def values_get (values : List (String × PyVal)) (k : String) : PyVal :=
  (lookupKey k values).getD .vNone

/-- The `values` entry contributed by a validated field: present exactly when
the field validated successfully (pydantic v1 omits failing fields). -/
def valsStr (k : String) : Except ValErr String → List (String × PyVal)
  | .ok s => [(k, .vStr s)]
  | .error _ => []

/-- `values` entry of a successful optional `str` field. -/
def valsOptStr (k : String) : Except ValErr (Option String) → List (String × PyVal)
  | .ok none => [(k, .vNone)]
  | .ok (some s) => [(k, .vStr s)]
  | .error _ => []

/-- `values` entry of a successful optional `int` field. -/
def valsOptInt (k : String) : Except ValErr (Option Int) → List (String × PyVal)
  | .ok none => [(k, .vNone)]
  | .ok (some n) => [(k, .vInt n)]
  | .error _ => []

/-- `values` entry of a successful optional `dict` field. -/
def valsOptDict (k : String) :
    Except ValErr (Option (List (String × Json))) → List (String × PyVal)
  | .ok none => [(k, .vNone)]
  | .ok (some fs) => [(k, .vDict fs)]
  | .error _ => []

/-- `values` entry of a successful required `datetime` field. -/
def valsDT (k : String) : Except ValErr DateTime → List (String × PyVal)
  | .ok d => [(k, .vDT d)]
  | .error _ => []

/-- `values` entry of a successful optional `datetime` field. -/
def valsOptDT (k : String) : Except ValErr (Option DateTime) → List (String × PyVal)
  | .ok none => [(k, .vNone)]
  | .ok (some d) => [(k, .vDT d)]
  | .error _ => []

/-- `values` entry of an `Option String` value computed by a validator. -/
def valsOfOptStr (k : String) : Option String → List (String × PyVal)
  | none => [(k, .vNone)]
  | some s => [(k, .vStr s)]

/-- The field errors contributed by one field result. -/
def errList {α : Type} : Except ValErr α → List ValErr
  | .ok _ => []
  | .error e => [e]

/-- Serialized form of an optional string field. -/
def pyOfOptStr : Option String → PyVal
  | none => .vNone
  | some s => .vStr s

/-- Serialized form of an optional int field. -/
def pyOfOptInt : Option Int → PyVal
  | none => .vNone
  | some n => .vInt n

/-- Serialized form of an optional dict field. -/
def pyOfOptDict : Option (List (String × Json)) → PyVal
  | none => .vNone
  | some fs => .vDict fs

/-- Serialized form of an optional datetime field. -/
def pyOfOptDT : Option DateTime → PyVal
  | none => .vNone
  | some d => .vDT d

/-! ## Models (`sharepointlib/models.py`)

Each model is embedded as a record plus a `validate` function that follows
pydantic v1 `validate_model` field by field in declaration order, and a `dict`
function mirroring the model's `.dict()` serialization (python field names as
keys; `ListDir.dict` and `GetFileInfo.dict` override `dict()` to exclude the
raw derivation-only fields). -/

/-- `GetSiteInfo` record (models.py lines 12-37). -/
structure GetSiteInfo where
  id : String
  name : Option String
  display_name : Option String
  web_url : Option String
  created_date_time : DateTime
  last_modified_date_time : Option DateTime
deriving DecidableEq

/-- pydantic v1 validation of `GetSiteInfo` (fields in declaration order:
id, name, displayName, webUrl, createdDateTime, lastModifiedDateTime; no
custom validators). -/
def GetSiteInfo.validate (raw : List (String × Json)) : Except VErr GetSiteInfo :=
  let idR := reqStrField raw "id" "id"
  let nameR := optStrField raw "name" "name"
  let displayNameR := optStrField raw "displayName" "display_name"
  let webUrlR := optStrField raw "webUrl" "web_url"
  let createdR := reqDTField raw "createdDateTime" "created_date_time"
  let lmdtR := optDTField raw "lastModifiedDateTime" "last_modified_date_time"
  match idR, nameR, displayNameR, webUrlR, createdR, lmdtR with
  | .ok i, .ok n, .ok dn, .ok wu, .ok cr, .ok lm =>
    .ok ⟨i, n, dn, wu, cr, lm⟩
  | _, _, _, _, _, _ =>
    .error (.fieldErrors (errList idR ++ errList nameR ++ errList displayNameR
      ++ errList webUrlR ++ errList createdR ++ errList lmdtR))

/-- `GetSiteInfo.dict()` (default pydantic serialization, python field names
as keys, no exclusions). -/
def GetSiteInfo.dict (r : GetSiteInfo) : List (String × PyVal) :=
  [("id", .vStr r.id),
   ("name", pyOfOptStr r.name),
   ("display_name", pyOfOptStr r.display_name),
   ("web_url", pyOfOptStr r.web_url),
   ("created_date_time", .vDT r.created_date_time),
   ("last_modified_date_time", pyOfOptDT r.last_modified_date_time)]

/-- `ListDrives` record (models.py lines 74-105). -/
structure ListDrives where
  id : String
  name : Option String
  description : Option String
  web_url : Option String
  drive_type : Option String
  created_date_time : DateTime
  last_modified_date_time : Option DateTime
deriving DecidableEq

/-- pydantic v1 validation of `ListDrives` (declaration order: id, name,
description, webUrl, driveType, createdDateTime, lastModifiedDateTime). -/
def ListDrives.validate (raw : List (String × Json)) : Except VErr ListDrives :=
  let idR := reqStrField raw "id" "id"
  let nameR := optStrField raw "name" "name"
  let descriptionR := optStrField raw "description" "description"
  let webUrlR := optStrField raw "webUrl" "web_url"
  let driveTypeR := optStrField raw "driveType" "drive_type"
  let createdR := reqDTField raw "createdDateTime" "created_date_time"
  let lmdtR := optDTField raw "lastModifiedDateTime" "last_modified_date_time"
  match idR, nameR, descriptionR, webUrlR, driveTypeR, createdR, lmdtR with
  | .ok i, .ok n, .ok de, .ok wu, .ok dt_, .ok cr, .ok lm =>
    .ok ⟨i, n, de, wu, dt_, cr, lm⟩
  | _, _, _, _, _, _, _ =>
    .error (.fieldErrors (errList idR ++ errList nameR ++ errList descriptionR
      ++ errList webUrlR ++ errList driveTypeR ++ errList createdR ++ errList lmdtR))

/-- `ListDrives.dict()` (default serialization, no exclusions). -/
def ListDrives.dict (r : ListDrives) : List (String × PyVal) :=
  [("id", .vStr r.id),
   ("name", pyOfOptStr r.name),
   ("description", pyOfOptStr r.description),
   ("web_url", pyOfOptStr r.web_url),
   ("drive_type", pyOfOptStr r.drive_type),
   ("created_date_time", .vDT r.created_date_time),
   ("last_modified_date_time", pyOfOptDT r.last_modified_date_time)]

/-- Whether the first character list starts the second one. -/
def leadsWith : List Char → List Char → Bool
  | [], _ => true
  | _ :: _, [] => false
  | a :: as_, b :: bs => a = b && leadsWith as_ bs

/-- Python substring test `needle in hay` over character lists. -/
def occursIn (needle : List Char) : List Char → Bool
  | [] => leadsWith needle []
  | c :: rest => leadsWith needle (c :: rest) || occursIn needle rest

/-- Python `key in v` on a JSON value: key membership for a mapping, substring
test for a string, element equality for a list; `TypeError` otherwise. -/
def pyContains (key : String) : Json → Except PyExc Bool
  | .obj fs => .ok (lookupKey key fs).isSome
  | .str s => .ok (occursIn key.data s.data)
  | .arr xs => .ok (jsonStrMem key xs)
  | _ => .error .typeError

/-- `ListDir` record (models.py lines 139-217), fields in declaration order. -/
structure ListDir where
  id : String
  name : String
  extension : Option String
  size : Option Int
  path : Option String
  web_url : Option String
  folder : Option (List (String × Json))
  created_date_time : DateTime
  last_modified_date_time : Option DateTime
  last_modified_by : Option (List (String × Json))
  last_modified_by_name : Option String
  last_modified_by_email : Option String

/-- `ListDir.set_extension` (models.py lines 187-191), a `pre`, `always`
validator on `extension`.  `values` holds the previously validated fields; as
`extension` is declared before `folder`, the `values.get("folder")` lookup is
made before `folder` has been validated.  `values["name"]` raises `KeyError`
(uncaught by pydantic v1) when `name` failed validation. -/
def ListDir.set_extension (values : List (String × PyVal)) :
    Except PyExc (Option String) :=
  match values_get values "folder" with
  | .vNone =>
    match lookupKey "name" values with
    | some (.vStr name) =>
      .ok (if name.data.contains '.'
           then some ⟨(splitOnChar '.' name.data).getLastD []⟩
           else none)
    | some _ => .error .typeError
    | none => .error .keyError
  | _ => .ok none

/-- `ListDir.set_last_modified_by_name` (models.py lines 193-202), a `pre`,
`always` validator.  `values.get("last_modified_by")` never raises; the stored
value is a dict or `None` (the field validated as `dict` with default `None`),
and an empty dict is falsy.  A `TypeError` from `in`/indexing on a non-mapping
`user` value is caught by pydantic v1 and becomes a field error. -/
def ListDir.set_last_modified_by_name (values : List (String × PyVal)) :
    Except PyExc Json :=
  match values_get values "last_modified_by" with
  | .vDict fs =>
    if fs.isEmpty then .ok .null
    else
      match lookupKey "user" fs with
      | none => .ok .null
      | some user =>
        match pyContains "displayName" user with
        | .error e => .error e
        | .ok false => .ok .null
        | .ok true =>
          match user with
          | .obj ufs => .ok ((lookupKey "displayName" ufs).getD .null)
          | _ => .error .typeError
  | _ => .ok .null

/-- `ListDir.set_last_modified_by_email` (models.py lines 204-213), the same
shape as `set_last_modified_by_name` with the `email` key. -/
def ListDir.set_last_modified_by_email (values : List (String × PyVal)) :
    Except PyExc Json :=
  match values_get values "last_modified_by" with
  | .vDict fs =>
    if fs.isEmpty then .ok .null
    else
      match lookupKey "user" fs with
      | none => .ok .null
      | some user =>
        match pyContains "email" user with
        | .error e => .error e
        | .ok false => .ok .null
        | .ok true =>
          match user with
          | .obj ufs => .ok ((lookupKey "email" ufs).getD .null)
          | _ => .error .typeError
  | _ => .ok .null

/-- pydantic v1 validation of `ListDir`.  Field declaration order: id, name,
extension, size, path, webUrl, folder, createdDateTime, lastModifiedDateTime,
lastModifiedBy, last_modified_by_name, last_modified_by_email.  The `values`
dict grows in that order, successes only. -/
def ListDir.validate (raw : List (String × Json)) : Except VErr ListDir :=
  let idR := reqStrField raw "id" "id"
  let nameR := reqStrField raw "name" "name"
  let vals2 := valsStr "id" idR ++ valsStr "name" nameR
  match ListDir.set_extension vals2 with
  | .error e => .error (.uncaught e)
  | .ok extensionV =>
    let vals3 := vals2 ++ valsOfOptStr "extension" extensionV
    let sizeR := optIntField raw "size" "size"
    let pathR := optStrField raw "path" "path"
    let webUrlR := optStrField raw "webUrl" "web_url"
    let folderR := optDictField raw "folder" "folder"
    let createdR := reqDTField raw "createdDateTime" "created_date_time"
    let lmdtR := optDTField raw "lastModifiedDateTime" "last_modified_date_time"
    let lmbR := optDictField raw "lastModifiedBy" "last_modified_by"
    let vals10 := vals3 ++ valsOptInt "size" sizeR ++ valsOptStr "path" pathR
      ++ valsOptStr "web_url" webUrlR ++ valsOptDict "folder" folderR
      ++ valsDT "created_date_time" createdR
      ++ valsOptDT "last_modified_date_time" lmdtR
      ++ valsOptDict "last_modified_by" lmbR
    let lmbNameR : Except ValErr (Option String) :=
      match ListDir.set_last_modified_by_name vals10 with
      | .ok j => optStrOfJson "last_modified_by_name" j
      | .error _ => .error (.validatorRaised "last_modified_by_name")
    let vals11 := vals10 ++ valsOptStr "last_modified_by_name" lmbNameR
    let lmbEmailR : Except ValErr (Option String) :=
      match ListDir.set_last_modified_by_email vals11 with
      | .ok j => optStrOfJson "last_modified_by_email" j
      | .error _ => .error (.validatorRaised "last_modified_by_email")
    match idR, nameR, sizeR, pathR, webUrlR, folderR, createdR, lmdtR, lmbR,
        lmbNameR, lmbEmailR with
    | .ok i, .ok n, .ok sz, .ok p, .ok wu, .ok fo, .ok cr, .ok lm, .ok lmb,
        .ok lmbn, .ok lmbe =>
      .ok ⟨i, n, extensionV, sz, p, wu, fo, cr, lm, lmb, lmbn, lmbe⟩
    | _, _, _, _, _, _, _, _, _, _, _ =>
      .error (.fieldErrors (errList idR ++ errList nameR ++ errList sizeR
        ++ errList pathR ++ errList webUrlR ++ errList folderR ++ errList createdR
        ++ errList lmdtR ++ errList lmbR ++ errList lmbNameR ++ errList lmbEmailR))

/-- `super().dict()` for `ListDir`: all declared fields under their python
names, in declaration order. -/
def ListDir.base_dict (r : ListDir) : List (String × PyVal) :=
  [("id", .vStr r.id),
   ("name", .vStr r.name),
   ("extension", pyOfOptStr r.extension),
   ("size", pyOfOptInt r.size),
   ("path", pyOfOptStr r.path),
   ("web_url", pyOfOptStr r.web_url),
   ("folder", pyOfOptDict r.folder),
   ("created_date_time", .vDT r.created_date_time),
   ("last_modified_date_time", pyOfOptDT r.last_modified_date_time),
   ("last_modified_by", pyOfOptDict r.last_modified_by),
   ("last_modified_by_name", pyOfOptStr r.last_modified_by_name),
   ("last_modified_by_email", pyOfOptStr r.last_modified_by_email)]

/-- `ListDir.dict` (models.py lines 215-217): the default serialization with
`exclude={"folder", "last_modified_by"}`. -/
def ListDir.dict (r : ListDir) : List (String × PyVal) :=
  r.base_dict.filter (fun kv => !(kv.1 == "folder" || kv.1 == "last_modified_by"))

/-- `GetFileInfo` record (models.py lines 270-320), declaration order. -/
structure GetFileInfo where
  id : String
  name : String
  web_url : Option String
  size : Option Int
  created_date_time : DateTime
  last_modified_date_time : Option DateTime
  last_modified_by : Option (List (String × Json))
  last_modified_by_email : Option String

/-- `GetFileInfo.set_last_modified_by_email` (models.py lines 306-313); same
code as the `ListDir` validator of the same name. -/
def GetFileInfo.set_last_modified_by_email (values : List (String × PyVal)) :
    Except PyExc Json :=
  match values_get values "last_modified_by" with
  | .vDict fs =>
    if fs.isEmpty then .ok .null
    else
      match lookupKey "user" fs with
      | none => .ok .null
      | some user =>
        match pyContains "email" user with
        | .error e => .error e
        | .ok false => .ok .null
        | .ok true =>
          match user with
          | .obj ufs => .ok ((lookupKey "email" ufs).getD .null)
          | _ => .error .typeError
  | _ => .ok .null

/-- pydantic v1 validation of `GetFileInfo` (declaration order: id, name,
webUrl, size, createdDateTime, lastModifiedDateTime, lastModifiedBy,
last_modified_by_email). -/
def GetFileInfo.validate (raw : List (String × Json)) : Except VErr GetFileInfo :=
  let idR := reqStrField raw "id" "id"
  let nameR := reqStrField raw "name" "name"
  let webUrlR := optStrField raw "webUrl" "web_url"
  let sizeR := optIntField raw "size" "size"
  let createdR := reqDTField raw "createdDateTime" "created_date_time"
  let lmdtR := optDTField raw "lastModifiedDateTime" "last_modified_date_time"
  let lmbR := optDictField raw "lastModifiedBy" "last_modified_by"
  let vals7 := valsStr "id" idR ++ valsStr "name" nameR
    ++ valsOptStr "web_url" webUrlR ++ valsOptInt "size" sizeR
    ++ valsDT "created_date_time" createdR
    ++ valsOptDT "last_modified_date_time" lmdtR
    ++ valsOptDict "last_modified_by" lmbR
  let lmbEmailR : Except ValErr (Option String) :=
    match GetFileInfo.set_last_modified_by_email vals7 with
    | .ok j => optStrOfJson "last_modified_by_email" j
    | .error _ => .error (.validatorRaised "last_modified_by_email")
  match idR, nameR, webUrlR, sizeR, createdR, lmdtR, lmbR, lmbEmailR with
  | .ok i, .ok n, .ok wu, .ok sz, .ok cr, .ok lm, .ok lmb, .ok lmbe =>
    .ok ⟨i, n, wu, sz, cr, lm, lmb, lmbe⟩
  | _, _, _, _, _, _, _, _ =>
    .error (.fieldErrors (errList idR ++ errList nameR ++ errList webUrlR
      ++ errList sizeR ++ errList createdR ++ errList lmdtR ++ errList lmbR
      ++ errList lmbEmailR))

/-- `super().dict()` for `GetFileInfo`: all declared fields. -/
def GetFileInfo.base_dict (r : GetFileInfo) : List (String × PyVal) :=
  [("id", .vStr r.id),
   ("name", .vStr r.name),
   ("web_url", pyOfOptStr r.web_url),
   ("size", pyOfOptInt r.size),
   ("created_date_time", .vDT r.created_date_time),
   ("last_modified_date_time", pyOfOptDT r.last_modified_date_time),
   ("last_modified_by", pyOfOptDict r.last_modified_by),
   ("last_modified_by_email", pyOfOptStr r.last_modified_by_email)]

/-- `GetFileInfo.dict` (models.py lines 316-320): default serialization with
`exclude={"last_modified_by"}`. -/
def GetFileInfo.dict (r : GetFileInfo) : List (String × PyVal) :=
  r.base_dict.filter (fun kv => !(kv.1 == "last_modified_by"))

/-! ## List validation and response handling (`sharepointlib/sharepoint.py`)

`SharePoint._handle_response` (sharepoint.py lines 343-386) deserializes a
response body: for `rtype="scalar"` it validates `response.json()` against the
model and returns `validated.dict()`; for `rtype="list"` it validates
`response.json()["value"]` with `parse_obj_as(list[model], ...)` and returns
`[item.dict() for item in validated_list]`.  pydantic v1 list validation
validates every member and aggregates all member errors, tagged with the
member index; an uncaught exception inside a member aborts immediately. -/

/-- Error outcome of `parse_obj_as(list[model], ...)`. -/
inductive ManyErr where
  | itemErrors (errs : List (Nat × ValErr))
  | uncaught (e : PyExc)
deriving DecidableEq

/-- Validate the members of a python list one by one from index `idx`,
collecting indexed field errors across all members (pydantic v1 aggregates
them into one `ValidationError`); an uncaught exception stops everything. -/
def validate_many_go {α : Type} (v : List (String × Json) → Except VErr α) :
    Nat → List Json → Except PyExc (List (Nat × ValErr) × List α)
  | _, [] => .ok ([], [])
  | idx, j :: rest =>
    let head : Except PyExc (List (Nat × ValErr) × Option α) :=
      match j with
      | .obj fs =>
        match v fs with
        | .ok a => .ok ([], some a)
        | .error (.fieldErrors es) => .ok (es.map (fun e => (idx, e)), none)
        | .error (.uncaught e) => .error e
      | _ => .ok ([(idx, .notADict)], none)
    match head with
    | .error e => .error e
    | .ok (hErrs, ha) =>
      match validate_many_go v (idx + 1) rest with
      | .error e => .error e
      | .ok (tErrs, tas) => .ok (hErrs ++ tErrs, ha.toList ++ tas)

/-- `parse_obj_as(list[model], items)`: succeeds with the list of validated
records exactly when every member validates; otherwise raises one
`ValidationError` carrying every member's errors. -/
def validate_many {α : Type} (v : List (String × Json) → Except VErr α)
    (items : List Json) : Except ManyErr (List α) :=
  match validate_many_go v 0 items with
  | .error e => .error (.uncaught e)
  | .ok ([], oks) => .ok oks
  | .ok (errs, _) => .error (.itemErrors errs)

/-- Failure of `_handle_response`: a `KeyError`/`TypeError` from
`response.json()["value"]`, a non-list `"value"`, a `ValidationError`, or an
exception pydantic does not catch. -/
inductive HandleErr where
  | jsonAccessError                          -- response.json()["value"] raised
  | notAList                                 -- "value is not a valid list"
  | notAMapping                              -- model(**raw) on a non-mapping
  | fieldErrors (errs : List ValErr)
  | itemErrors (errs : List (Nat × ValErr))
  | uncaughtExc (e : PyExc)
deriving DecidableEq

/-- `_handle_response(..., rtype="scalar")`: validate the whole body and
serialize it with the model's `dict()`. -/
def handle_response_scalar {α : Type} (v : List (String × Json) → Except VErr α)
    (toDict : α → List (String × PyVal)) (body : Json) :
    Except HandleErr (List (String × PyVal)) :=
  match body with
  | .obj fs =>
    match v fs with
    | .ok a => .ok (toDict a)
    | .error (.fieldErrors es) => .error (.fieldErrors es)
    | .error (.uncaught e) => .error (.uncaughtExc e)
  | _ => .error .notAMapping

/-- `_handle_response(..., rtype="list")`: validate `body["value"]` as a list
of records and serialize each with the model's `dict()`. -/
def handle_response_list {α : Type} (v : List (String × Json) → Except VErr α)
    (toDict : α → List (String × PyVal)) (body : Json) :
    Except HandleErr (List (List (String × PyVal))) :=
  match body with
  | .obj fs =>
    match lookupKey "value" fs with
    | none => .error .jsonAccessError
    | some (.arr items) =>
      match validate_many v items with
      | .ok recs => .ok (recs.map toDict)
      | .error (.itemErrors es) => .error (.itemErrors es)
      | .error (.uncaught e) => .error (.uncaughtExc e)
    | some _ => .error .notAList
  | _ => .error .jsonAccessError

/-! ## Dispatcher result envelopes -/

/-- Content of a dispatcher `Response`: one serialized record or a list of
serialized records. -/
inductive RespContent where
  | scalar (d : List (String × PyVal))
  | recs (ds : List (List (String × PyVal)))

/-- `SharePoint.Response` (sharepoint.py lines 163-185): HTTP status code plus
content, `none` when no content was produced. -/
structure Response where
  status_code : Int
  content : Option RespContent

/-- `SharePoint.get_site_info` after the HTTP call (sharepoint.py lines
443-454): `content = None`; only on status 200 is the body deserialized with
the `GetSiteInfo` model.  A `ValidationError` propagates (the method returns
nothing), hence the `Except`. -/
def get_site_info_result (status_code : Int) (body : Json) :
    Except HandleErr Response :=
  if status_code = 200 then
    match handle_response_scalar GetSiteInfo.validate GetSiteInfo.dict body with
    | .ok d => .ok ⟨status_code, some (.scalar d)⟩
    | .error e => .error e
  else .ok ⟨status_code, none⟩

/-- `SharePoint.list_drives` after the HTTP call (sharepoint.py lines
581-592): only on status 200 is the body deserialized as a list of
`ListDrives` records. -/
def list_drives_result (status_code : Int) (body : Json) :
    Except HandleErr Response :=
  if status_code = 200 then
    match handle_response_list ListDrives.validate ListDrives.dict body with
    | .ok ds => .ok ⟨status_code, some (.recs ds)⟩
    | .error e => .error e
  else .ok ⟨status_code, none⟩

/-- `SharePoint.get_file_info` after the HTTP call (sharepoint.py lines
1001-1011): statuses 200 and 202 deserialize the body with `GetFileInfo`. -/
def get_file_info_result (status_code : Int) (body : Json) :
    Except HandleErr Response :=
  if status_code = 200 ∨ status_code = 202 then
    match handle_response_scalar GetFileInfo.validate GetFileInfo.dict body with
    | .ok d => .ok ⟨status_code, some (.scalar d)⟩
    | .error e => .error e
  else .ok ⟨status_code, none⟩

/-- Python `path or "/"` for `path: str | None`: `None` and the empty string
are falsy. -/
def path_or_root : Option String → String
  | none => "/"
  | some p => if p = "" then "/" else p

/-- Python `item[k] = v` on a dict with unique keys: replace in place when the
key exists, append otherwise. -/
def dict_set (d : List (String × PyVal)) (k : String) (v : PyVal) :
    List (String × PyVal) :=
  if (d.map Prod.fst).contains k then
    d.map (fun kv => if kv.1 = k then (k, v) else kv)
  else d ++ [(k, v)]

/-- `SharePoint.list_dir` after the HTTP call (sharepoint.py lines 721-736):
on status 200 the body is deserialized as a list of `ListDir` records and
`item["path"] = path or "/"` is assigned on every item. -/
def list_dir_result (status_code : Int) (body : Json) (path : Option String) :
    Except HandleErr Response :=
  if status_code = 200 then
    match handle_response_list ListDir.validate ListDir.dict body with
    | .ok ds =>
      .ok ⟨status_code,
        some (.recs (ds.map (fun item => dict_set item "path" (.vStr (path_or_root path)))))⟩
    | .error e => .error e
  else .ok ⟨status_code, none⟩

/-- Python `item.get(k)` on a serialized record. -/
def dict_get (d : List (String × PyVal)) (k : String) : PyVal :=
  (lookupKey k d).getD .vNone

/-- The summary entry `download_all_files` appends for one downloaded item
(sharepoint.py lines 1504-1517); `status` is `"pass"` exactly when the
individual `download_file` call returned HTTP 200.  `dl` maps the item's
`name` value to the status code of its `download_file` call. -/
def download_entry (dl : PyVal → Int) (item : List (String × PyVal)) :
    List (String × PyVal) :=
  [("id", dict_get item "id"),
   ("name", dict_get item "name"),
   ("extension", dict_get item "extension"),
   ("size", dict_get item "size"),
   ("path", dict_get item "path"),
   ("created_date_time", dict_get item "created_date_time"),
   ("last_modified_date_time", dict_get item "last_modified_date_time"),
   ("last_modified_by_name", dict_get item "last_modified_by_name"),
   ("last_modified_by_email", dict_get item "last_modified_by_email"),
   ("status", .vStr (if dl (dict_get item "name") = 200 then "pass" else "fail"))]

/-- The download loop of `SharePoint.download_all_files` (sharepoint.py lines
1483-1518): items whose `extension` is `None` are skipped (`continue`) before
any download is attempted; every other item is downloaded and contributes one
summary entry. -/
def download_all_files_content (dl : PyVal → Int) :
    List (List (String × PyVal)) → List (List (String × PyVal))
  | [] => []
  | item :: rest =>
    match dict_get item "extension" with
    | .vNone => download_all_files_content dl rest
    | _ => download_entry dl item :: download_all_files_content dl rest

/-- `SharePoint.download_all_files` after the `list_dir` call (sharepoint.py
lines 1474-1521): a non-200 listing returns only the status code with `None`
content; otherwise the summary list is built from the listed items. -/
def download_all_files_result (listStatus : Int)
    (items : List (List (String × PyVal))) (dl : PyVal → Int) : Response :=
  if listStatus ≠ 200 then ⟨listStatus, none⟩
  else ⟨listStatus, some (.recs (download_all_files_content dl items))⟩

/-! ## Field projection for `$select` query parameters

Each dispatcher method builds
`alias_list = [field.alias for field in Model.__fields__.values() if field.field_info.alias is not None]`
and sends `params = {"$select": ",".join(alias_list)}` — exactly the declared
remote (aliased) field names, in declaration order. -/

/-- One declared model field: python name and optional remote alias. -/
structure FieldDecl where
  name : String
  aliasName : Option String
deriving DecidableEq

/-- The `__fields__` declaration list of `ListDir`. -/
def ListDir.fields_decl : List FieldDecl :=
  [⟨"id", some "id"⟩, ⟨"name", some "name"⟩, ⟨"extension", none⟩,
   ⟨"size", some "size"⟩, ⟨"path", none⟩, ⟨"web_url", some "webUrl"⟩,
   ⟨"folder", some "folder"⟩, ⟨"created_date_time", some "createdDateTime"⟩,
   ⟨"last_modified_date_time", some "lastModifiedDateTime"⟩,
   ⟨"last_modified_by", some "lastModifiedBy"⟩,
   ⟨"last_modified_by_name", none⟩, ⟨"last_modified_by_email", none⟩]

/-- The `__fields__` declaration list of `GetSiteInfo`. -/
def GetSiteInfo.fields_decl : List FieldDecl :=
  [⟨"id", some "id"⟩, ⟨"name", some "name"⟩, ⟨"display_name", some "displayName"⟩,
   ⟨"web_url", some "webUrl"⟩, ⟨"created_date_time", some "createdDateTime"⟩,
   ⟨"last_modified_date_time", some "lastModifiedDateTime"⟩]

/-- The `__fields__` declaration list of `GetFileInfo`. -/
def GetFileInfo.fields_decl : List FieldDecl :=
  [⟨"id", some "id"⟩, ⟨"name", some "name"⟩, ⟨"web_url", some "webUrl"⟩,
   ⟨"size", some "size"⟩, ⟨"created_date_time", some "createdDateTime"⟩,
   ⟨"last_modified_date_time", some "lastModifiedDateTime"⟩,
   ⟨"last_modified_by", some "lastModifiedBy"⟩,
   ⟨"last_modified_by_email", none⟩]

/-- `alias_list`: the aliases of the fields that declare one. -/
def select_alias_list (fds : List FieldDecl) : List String :=
  fds.filterMap (·.aliasName)

/-- Python `",".join(xs)`. -/
def join_commas : List String → String
  | [] => ""
  | [s] => s
  | s :: rest => s ++ "," ++ join_commas rest

/-- The `$select` query-parameter value built from a model's fields. -/
def select_param (fds : List FieldDecl) : String :=
  join_commas (select_alias_list fds)

/-! ## Auxiliary definitions used by the correctness statements -/

/-- Whether a serialized value is python `None`. -/
def isVNone : PyVal → Bool
  | .vNone => true
  | _ => false

/-- The field errors a single list member contributes (empty when the member
validates, `notADict` when it is not a mapping; an uncaught exception carries
no field errors). -/
def member_errs {α : Type} (v : List (String × Json) → Except VErr α) :
    Json → List ValErr
  | .obj fs =>
    match v fs with
    | .ok _ => []
    | .error (.fieldErrors es) => es
    | .error (.uncaught _) => []
  | _ => [.notADict]

/-- Modelled from the amended claim for list validation: every member is
validated and all members' errors are aggregated, each tagged with its index,
in member order. -/
def all_item_errors {α : Type} (v : List (String × Json) → Except VErr α)
    (items : List Json) : List (Nat × ValErr) :=
  (items.enum.map (fun p => (member_errs v p.2).map (fun e => (p.1, e)))).flatten

/-- The successfully validated members, in order. -/
def member_oks {α : Type} (v : List (String × Json) → Except VErr α)
    (items : List Json) : List α :=
  items.filterMap (fun j =>
    match j with
    | .obj fs => match v fs with | .ok a => some a | .error _ => none
    | _ => none)

/-- No member of the list makes the validator abort with an uncaught
exception. -/
def NoUncaught {α : Type} (v : List (String × Json) → Except VErr α)
    (items : List Json) : Prop :=
  ∀ fs e, Json.obj fs ∈ items → v fs ≠ .error (.uncaught e)

/-- The `values` dict pydantic v1 has accumulated when the
`last_modified_by_name` validator of `ListDir` runs on a raw object whose
fields all validated to the fields of `r`. -/
def ListDir.vals_before_name (r : ListDir) : List (String × PyVal) :=
  [("id", .vStr r.id), ("name", .vStr r.name),
   ("extension", pyOfOptStr r.extension), ("size", pyOfOptInt r.size),
   ("path", pyOfOptStr r.path), ("web_url", pyOfOptStr r.web_url),
   ("folder", pyOfOptDict r.folder),
   ("created_date_time", .vDT r.created_date_time),
   ("last_modified_date_time", pyOfOptDT r.last_modified_date_time),
   ("last_modified_by", pyOfOptDict r.last_modified_by)]

/-- The `values` dict when the `last_modified_by_email` validator of
`ListDir` runs. -/
def ListDir.vals_before_email (r : ListDir) : List (String × PyVal) :=
  ListDir.vals_before_name r ++
    [("last_modified_by_name", pyOfOptStr r.last_modified_by_name)]

/-- The `values` dict when the `last_modified_by_email` validator of
`GetFileInfo` runs. -/
def GetFileInfo.vals_before_email (r : GetFileInfo) : List (String × PyVal) :=
  [("id", .vStr r.id), ("name", .vStr r.name),
   ("web_url", pyOfOptStr r.web_url), ("size", pyOfOptInt r.size),
   ("created_date_time", .vDT r.created_date_time),
   ("last_modified_date_time", pyOfOptDT r.last_modified_date_time),
   ("last_modified_by", pyOfOptDict r.last_modified_by)]

/-- Whether a validation outcome is an uncaught python exception. -/
def isUncaughtErr {α : Type} : Except VErr α → Bool
  | .error (.uncaught _) => true
  | _ => false

/-- The raw `lastModifiedBy` values for which the leniency claim asserts that
the derived field for `key` is null without raising: absent, null, or a
mapping whose `user` entry is absent or is itself a mapping lacking `key`. -/
def LmbKeyAbsent (key : String) : Option Json → Prop
  | none => True
  | some .null => True
  | some (.obj fs) =>
    lookupKey "user" fs = none ∨
    ∃ ufs, lookupKey "user" fs = some (.obj ufs) ∧ lookupKey key ufs = none
  | some _ => False

/-- The directory-listing raw object of the extension-derivation failing
input: a folder (non-null folder marker) whose name contains a dot. -/
def c1_input : List (String × Json) :=
  [("id", .str "2"), ("name", .str "reports.2024"),
   ("folder", .obj [("childCount", .num 3)]),
   ("createdDateTime", .str "2024-01-01T00:00:00Z")]

/-- A raw directory-listing object that validates successfully. -/
def c2_good : Json :=
  .obj [("id", .str "1"), ("name", .str "a.txt"),
        ("createdDateTime", .str "2024-01-01T00:00:00Z")]

/-- A raw directory-listing object missing its required identity field. -/
def c2_bad : Json :=
  .obj [("name", .str "b.txt"), ("createdDateTime", .str "2024-01-01T00:00:00Z")]

/-- A site-info raw object whose identity field is a number, not a string. -/
def c6_input : List (String × Json) :=
  [("id", .num 5), ("createdDateTime", .str "2024-01-01T00:00:00Z")]

/-- The datetime `2024-01-01T00:00:00Z` as parsed by the embedding. -/
def dt20240101 : DateTime := .parts ⟨2024, 1, 1, 0, 0, 0, 0, some 0⟩

/-- A scalar site-info response body with only the required fields. -/
def site_body : Json :=
  .obj [("id", .str "site1"), ("createdDateTime", .str "2024-01-01T00:00:00Z")]

/-- The serialized record `site_body` normalizes to. -/
def site_dict : List (String × PyVal) :=
  [("id", .vStr "site1"), ("name", .vNone), ("display_name", .vNone),
   ("web_url", .vNone), ("created_date_time", .vDT dt20240101),
   ("last_modified_date_time", .vNone)]

/-- A drive-listing response body with one drive. -/
def drives_body : Json :=
  .obj [("value", .arr [.obj [("id", .str "drv1"),
    ("createdDateTime", .str "2024-01-01T00:00:00Z")]])]

/-- The serialized record of the single drive in `drives_body`. -/
def drive_dict : List (String × PyVal) :=
  [("id", .vStr "drv1"), ("name", .vNone), ("description", .vNone),
   ("web_url", .vNone), ("drive_type", .vNone),
   ("created_date_time", .vDT dt20240101),
   ("last_modified_date_time", .vNone)]

/-- A directory-listing response body with one file item. -/
def listdir_body : Json :=
  .obj [("value", .arr [c2_good])]

/-- The serialized item of `listdir_body` after `list_dir` assigned
`item["path"] = "docs"`. -/
def listdir_item_dict : List (String × PyVal) :=
  [("id", .vStr "1"), ("name", .vStr "a.txt"), ("extension", .vStr "txt"),
   ("size", .vNone), ("path", .vStr "docs"), ("web_url", .vNone),
   ("created_date_time", .vDT dt20240101),
   ("last_modified_date_time", .vNone), ("last_modified_by_name", .vNone),
   ("last_modified_by_email", .vNone)]

/-- A file-info response body with only the required fields. -/
def fileinfo_body : Json :=
  .obj [("id", .str "f1"), ("name", .str "a.txt"),
        ("createdDateTime", .str "2024-01-01T00:00:00Z")]

/-- The serialized record `fileinfo_body` normalizes to. -/
def fileinfo_dict : List (String × PyVal) :=
  [("id", .vStr "f1"), ("name", .vStr "a.txt"), ("web_url", .vNone),
   ("size", .vNone), ("created_date_time", .vDT dt20240101),
   ("last_modified_date_time", .vNone), ("last_modified_by_email", .vNone)]

/-! # Theorems -/

theorem lookupKey_append {β : Type} (k : String) (A B : List (String × β)) :
    lookupKey k (A ++ B) =
      (match lookupKey k A with
       | some v => some v
       | none => lookupKey k B) := by
  induction A with
  | nil => rfl
  | cons kv rest ih =>
    rcases kv with ⟨k', v⟩
    by_cases h : k' = k
    · simp [lookupKey, h]
    · simp [lookupKey, h, ih]

theorem lookupKey_cons {β : Type} (k k' : String) (v : β)
    (rest : List (String × β)) :
    lookupKey k ((k', v) :: rest) = if k' = k then some v else lookupKey k rest :=
  rfl

theorem lookupKey_none_of_not_mem {β : Type} {k : String}
    {d : List (String × β)} (h : k ∉ d.map Prod.fst) : lookupKey k d = none := by
  induction d with
  | nil => rfl
  | cons kv rest ih =>
    rcases kv with ⟨k', v'⟩
    simp only [List.map_cons, List.mem_cons, not_or] at h
    rw [lookupKey_cons]
    split_ifs with hif
    · exact absurd hif.symm h.1
    · exact ih h.2

theorem lookupKey_map_replace_self {k : String} {v : PyVal}
    {d : List (String × PyVal)} (hmem : k ∈ d.map Prod.fst) :
    lookupKey k (d.map (fun kv => if kv.1 = k then (k, v) else kv)) = some v := by
  induction d with
  | nil => simp at hmem
  | cons kv rest ih =>
    rcases kv with ⟨k', v'⟩
    simp only [List.map_cons, List.mem_cons] at hmem ⊢
    by_cases h : k' = k
    · rw [if_pos h, lookupKey_cons, if_pos rfl]
    · rw [if_neg h, lookupKey_cons, if_neg h]
      rcases hmem with h1 | h2
      · exact absurd h1.symm h
      · exact ih h2

theorem lookupKey_map_replace_ne {k k' : String} {v : PyVal}
    (d : List (String × PyVal)) (h : k ≠ k') :
    lookupKey k (d.map (fun kv => if kv.1 = k' then (k', v) else kv)) =
      lookupKey k d := by
  induction d with
  | nil => rfl
  | cons kv rest ih =>
    rcases kv with ⟨k'', v'⟩
    simp only [List.map_cons]
    by_cases h2 : k'' = k'
    · rw [if_pos h2, lookupKey_cons, lookupKey_cons,
        if_neg (fun hh : k' = k => h hh.symm),
        if_neg (fun hh : k'' = k => h (hh.symm.trans h2))]
      exact ih
    · rw [if_neg h2, lookupKey_cons, lookupKey_cons]
      by_cases h3 : k'' = k
      · rw [if_pos h3, if_pos h3]
      · rw [if_neg h3, if_neg h3]
        exact ih

theorem lookupKey_dict_set_self {k : String} {v : PyVal}
    (d : List (String × PyVal)) : lookupKey k (dict_set d k v) = some v := by
  unfold dict_set
  by_cases hmem : (d.map Prod.fst).contains k
  · rw [if_pos hmem]
    exact lookupKey_map_replace_self (by simpa using hmem)
  · rw [if_neg hmem, lookupKey_append,
      lookupKey_none_of_not_mem (by simpa using hmem)]
    simp [lookupKey]

theorem lookupKey_dict_set_ne {k k' : String} {v : PyVal}
    (d : List (String × PyVal)) (h : k ≠ k') :
    lookupKey k (dict_set d k' v) = lookupKey k d := by
  unfold dict_set
  by_cases hmem : (d.map Prod.fst).contains k'
  · rw [if_pos hmem]
    exact lookupKey_map_replace_ne d h
  · rw [if_neg hmem, lookupKey_append]
    cases hd : lookupKey k d with
    | some v' => simp
    | none =>
      rw [lookupKey_cons, if_neg (fun hh : k' = k => h hh.symm)]
      rfl

theorem reqStrField_of_str {raw : List (String × Json)} {key fn s : String}
    (h : lookupKey key raw = some (.str s)) : reqStrField raw key fn = .ok s := by
  unfold reqStrField
  rw [h]
  rfl

theorem optStrField_of_str {raw : List (String × Json)} {key fn s : String}
    (h : lookupKey key raw = some (.str s)) :
    optStrField raw key fn = .ok (some s) := by
  unfold optStrField
  rw [h]
  rfl

theorem optStrField_of_none {raw : List (String × Json)} {key fn : String}
    (h : lookupKey key raw = none) : optStrField raw key fn = .ok none := by
  unfold optStrField
  rw [h]

theorem optIntField_of_num {raw : List (String × Json)} {key fn : String}
    {n : Int} (h : lookupKey key raw = some (.num n)) :
    optIntField raw key fn = .ok (some n) := by
  unfold optIntField
  rw [h]
  rfl

theorem optIntField_of_none {raw : List (String × Json)} {key fn : String}
    (h : lookupKey key raw = none) : optIntField raw key fn = .ok none := by
  unfold optIntField
  rw [h]

theorem reqDTField_of_parse {raw : List (String × Json)} {key fn : String}
    {j : Json} {d : DateTime} (h : lookupKey key raw = some j)
    (hp : parse_datetime j = .ok d) : reqDTField raw key fn = .ok d := by
  unfold reqDTField
  rw [h]
  cases j <;> simp_all [parse_datetime]

theorem optDTField_of_parse {raw : List (String × Json)} {key fn : String}
    {j : Json} {d : DateTime} (h : lookupKey key raw = some j) (hj : j ≠ .null)
    (hp : parse_datetime j = .ok d) : optDTField raw key fn = .ok (some d) := by
  unfold optDTField
  rw [h]
  cases j <;> simp_all [parse_datetime]

theorem optDTField_of_none {raw : List (String × Json)} {key fn : String}
    (h : lookupKey key raw = none) : optDTField raw key fn = .ok none := by
  unfold optDTField
  rw [h]

theorem optDictField_of_none {raw : List (String × Json)} {key fn : String}
    (h : lookupKey key raw = none) : optDictField raw key fn = .ok none := by
  unfold optDictField
  rw [h]

theorem optDictField_of_null {raw : List (String × Json)} {key fn : String}
    (h : lookupKey key raw = some .null) : optDictField raw key fn = .ok none := by
  unfold optDictField
  rw [h]

theorem optDictField_of_obj {raw : List (String × Json)} {key fn : String}
    {fs : List (String × Json)} (h : lookupKey key raw = some (.obj fs)) :
    optDictField raw key fn = .ok (some fs) := by
  unfold optDictField
  rw [h]
  rfl

/-! ## C1 -/

/-- C1: the claim states that a raw directory-listing object with a non-null
folder marker always gets a null derived extension.  The code contradicts this
(and its own docstring, which says the extension is only set "if the item is a
file"): because `extension` is declared before `folder`, pydantic v1 hands
`set_extension` a `values` dict that never contains `folder`, so the extension
is derived from the name even for folders.  Evaluating the embedded validation
on a folder named `"reports.2024"` (with a non-null folder marker) yields a
record whose folder marker is retained and whose extension is `"2024"`, not
null. -/
theorem c1_folder_extension_code_bug :
    (match ListDir.validate c1_input with
     | .ok r => some (r.extension, r.folder)
     | .error _ => none) =
      some (some "2024", some [("childCount", Json.num 3)]) := rfl

/-! ## C8 -/

/-- C8: for each schema shape the `$select` projection is exactly the list of
declared remote (aliased) field names — including the raw derivation-only
inputs `folder` and `lastModifiedBy` — and contains no derived field name
(`extension`, `path`, `last_modified_by_name`, `last_modified_by_email`);
nothing outside this list is requested. -/
theorem c8_select_projection :
    select_alias_list ListDir.fields_decl =
      ["id", "name", "size", "webUrl", "folder", "createdDateTime",
       "lastModifiedDateTime", "lastModifiedBy"] ∧
    "extension" ∉ select_alias_list ListDir.fields_decl ∧
    "path" ∉ select_alias_list ListDir.fields_decl ∧
    "last_modified_by_name" ∉ select_alias_list ListDir.fields_decl ∧
    "last_modified_by_email" ∉ select_alias_list ListDir.fields_decl ∧
    select_param ListDir.fields_decl =
      "id,name,size,webUrl,folder,createdDateTime,lastModifiedDateTime,lastModifiedBy" ∧
    select_alias_list GetSiteInfo.fields_decl =
      ["id", "name", "displayName", "webUrl", "createdDateTime",
       "lastModifiedDateTime"] ∧
    select_alias_list GetFileInfo.fields_decl =
      ["id", "name", "webUrl", "size", "createdDateTime",
       "lastModifiedDateTime", "lastModifiedBy"] ∧
    "last_modified_by_email" ∉ select_alias_list GetFileInfo.fields_decl := by
  refine ⟨rfl, ?_, ?_, ?_, ?_, rfl, rfl, rfl, ?_⟩ <;> decide

/-! ## C7 -/

/-- C7: when the HTTP response status is not the success status the result
envelope carries only the status code with null content; on success the
content is the normalized record (or list of records) produced by the matching
schema (shown for the two cited operations, `get_site_info` scalar-shaped and
`list_drives` list-shaped). -/
theorem c7_result_envelope :
    (∀ (st : Int) (b : Json), st ≠ 200 →
       get_site_info_result st b = .ok ⟨st, none⟩) ∧
    (∀ (st : Int) (b : Json), st ≠ 200 →
       list_drives_result st b = .ok ⟨st, none⟩) ∧
    (∀ (b : Json) (d : List (String × PyVal)),
       handle_response_scalar GetSiteInfo.validate GetSiteInfo.dict b = .ok d →
       get_site_info_result 200 b = .ok ⟨200, some (.scalar d)⟩) ∧
    (∀ (b : Json) (ds : List (List (String × PyVal))),
       handle_response_list ListDrives.validate ListDrives.dict b = .ok ds →
       list_drives_result 200 b = .ok ⟨200, some (.recs ds)⟩) := by
  refine ⟨?_, ?_, ?_, ?_⟩
  · intro st b h
    unfold get_site_info_result
    rw [if_neg h]
  · intro st b h
    unfold list_drives_result
    rw [if_neg h]
  · intro b d h
    unfold get_site_info_result
    rw [if_pos rfl, h]
  · intro b ds h
    unfold list_drives_result
    rw [if_pos rfl, h]

/-- Witness for C7 at concrete inputs: a 404 response yields only the status
code with null content; a 200 response yields the normalized content. -/
theorem c7_result_envelope_witness :
    get_site_info_result 404 .null = .ok ⟨404, none⟩ ∧
    list_drives_result 500 .null = .ok ⟨500, none⟩ ∧
    get_site_info_result 200 site_body = .ok ⟨200, some (.scalar site_dict)⟩ ∧
    list_drives_result 200 drives_body = .ok ⟨200, some (.recs [drive_dict])⟩ :=
  ⟨c7_result_envelope.1 404 .null (by decide),
   c7_result_envelope.2.1 500 .null (by decide),
   c7_result_envelope.2.2.1 site_body site_dict rfl,
   c7_result_envelope.2.2.2 drives_body [drive_dict] rfl⟩

/-! ## C9 -/

/-- C9: on a successful `list_dir` call every returned item carries a `path`
key equal to the caller-supplied path argument, or `"/"` when that argument is
`None` or the empty string; the key is assigned by the dispatcher on every
item, independently of the raw response. -/
theorem c9_path_attached :
    (∀ (st : Int) (b : Json) (p : Option String) (resp : Response)
       (ds : List (List (String × PyVal))),
       list_dir_result st b p = .ok resp → resp.content = some (.recs ds) →
       ∀ d ∈ ds, lookupKey "path" d = some (.vStr (path_or_root p))) ∧
    path_or_root none = "/" ∧
    path_or_root (some "") = "/" ∧
    (∀ s, s ≠ "" → path_or_root (some s) = s) := by
  refine ⟨?_, rfl, rfl, ?_⟩
  · intro st b p resp ds h hc d hd
    unfold list_dir_result at h
    split at h
    · cases hh : handle_response_list ListDir.validate ListDir.dict b with
      | error e => rw [hh] at h; cases h
      | ok ds0 =>
        rw [hh] at h
        injection h with h
        subst h
        simp only [Option.some.injEq] at hc
        cases hc
        rcases List.mem_map.mp hd with ⟨item, _, rfl⟩
        exact lookupKey_dict_set_self item
    · cases h
      simp at hc
  · intro s hs
    show (if s = "" then "/" else s) = s
    rw [if_neg hs]

/-- Witness for C9: a concrete 200 listing with path argument `"docs"`
returns its single item with `path = "docs"`; the falsy path arguments map to
`"/"`. -/
theorem c9_path_attached_witness :
    lookupKey "path" listdir_item_dict = some (.vStr (path_or_root (some "docs"))) ∧
    path_or_root none = "/" ∧ path_or_root (some "") = "/" ∧
    path_or_root (some "docs") = "docs" :=
  ⟨c9_path_attached.1 200 listdir_body (some "docs")
      ⟨200, some (.recs [listdir_item_dict])⟩ [listdir_item_dict] rfl rfl
      listdir_item_dict (List.Mem.head _),
   c9_path_attached.2.1, c9_path_attached.2.2.1,
   c9_path_attached.2.2.2 "docs" (by decide)⟩

/-! ## C5 -/

theorem handle_response_scalar_ok {α : Type}
    {v : List (String × Json) → Except VErr α}
    {toDict : α → List (String × PyVal)} {b : Json} {d : List (String × PyVal)}
    (hh : handle_response_scalar v toDict b = .ok d) : ∃ a, d = toDict a := by
  unfold handle_response_scalar at hh
  repeat' split at hh
  all_goals first
    | (injection hh with hh; exact ⟨_, hh.symm⟩)
    | exact ⟨_, rfl⟩
    | cases hh

theorem handle_response_list_ok {α : Type}
    {v : List (String × Json) → Except VErr α}
    {toDict : α → List (String × PyVal)} {b : Json}
    {ds0 : List (List (String × PyVal))}
    (hh : handle_response_list v toDict b = .ok ds0) :
    ∃ recs : List α, ds0 = List.map toDict recs := by
  unfold handle_response_list at hh
  repeat' split at hh
  all_goals first
    | (injection hh with hh; exact ⟨_, hh.symm⟩)
    | exact ⟨_, rfl⟩
    | cases hh

/-- C5: the serialized output of the directory-listing and file-info shapes
never contains the raw derivation-only nested objects — the folder marker and
the lastModifiedBy principal — only their derived scalar projections; the
exclusion holds for every record produced by the response-handling path
(`list_dir` items and `get_file_info` content). -/
theorem c5_raw_fields_excluded :
    (∀ r : ListDir, (ListDir.dict r).map Prod.fst =
      ["id", "name", "extension", "size", "path", "web_url",
       "created_date_time", "last_modified_date_time",
       "last_modified_by_name", "last_modified_by_email"]) ∧
    (∀ r : GetFileInfo, (GetFileInfo.dict r).map Prod.fst =
      ["id", "name", "web_url", "size", "created_date_time",
       "last_modified_date_time", "last_modified_by_email"]) ∧
    (∀ (st : Int) (b : Json) (p : Option String) (resp : Response)
       (ds : List (List (String × PyVal))),
       list_dir_result st b p = .ok resp → resp.content = some (.recs ds) →
       ∀ d ∈ ds, lookupKey "folder" d = none ∧
         lookupKey "last_modified_by" d = none) ∧
    (∀ (st : Int) (b : Json) (resp : Response) (d : List (String × PyVal)),
       get_file_info_result st b = .ok resp → resp.content = some (.scalar d) →
       lookupKey "last_modified_by" d = none) := by
  refine ⟨fun r => rfl, fun r => rfl, ?_, ?_⟩
  · intro st b p resp ds h hc d hd
    unfold list_dir_result at h
    split at h
    · cases hh : handle_response_list ListDir.validate ListDir.dict b with
      | error e => rw [hh] at h; cases h
      | ok ds0 =>
        rw [hh] at h
        injection h with h
        subst h
        simp only [Option.some.injEq] at hc
        cases hc
        rcases List.mem_map.mp hd with ⟨item, hitem, rfl⟩
        rcases handle_response_list_ok hh with ⟨recs, rfl⟩
        rcases List.mem_map.mp hitem with ⟨r, _, rfl⟩
        constructor
        · rw [lookupKey_dict_set_ne _ (by decide)]
          rfl
        · rw [lookupKey_dict_set_ne _ (by decide)]
          rfl
    · cases h
      simp at hc
  · intro st b resp d h hc
    unfold get_file_info_result at h
    split at h
    · cases hh : handle_response_scalar GetFileInfo.validate GetFileInfo.dict b with
      | error e => rw [hh] at h; cases h
      | ok d0 =>
        rw [hh] at h
        injection h with h
        subst h
        simp only [Option.some.injEq] at hc
        cases hc
        rcases handle_response_scalar_ok hh with ⟨a, rfl⟩
        rfl
    · cases h
      simp at hc

/-- Witness for C5 at concrete 200 responses: the returned directory item and
file-info record contain no `folder` and no `last_modified_by` key. -/
theorem c5_raw_fields_excluded_witness :
    (lookupKey "folder" listdir_item_dict = none ∧
     lookupKey "last_modified_by" listdir_item_dict = none) ∧
    lookupKey "last_modified_by" fileinfo_dict = none :=
  ⟨c5_raw_fields_excluded.2.2.1 200 listdir_body (some "docs")
      ⟨200, some (.recs [listdir_item_dict])⟩ [listdir_item_dict] rfl rfl
      listdir_item_dict (List.Mem.head _),
   c5_raw_fields_excluded.2.2.2 200 fileinfo_body
      ⟨200, some (.scalar fileinfo_dict)⟩ fileinfo_dict rfl rfl⟩

/-! ## C10 -/

/-- C10: on a successful `download_all_files` call, items whose derived
extension is null are skipped entirely (the summary equals the entry map over
the non-null-extension items only, so skipped items contribute no entry and no
download); every summary entry comes from an item with a non-null extension
and carries `status = "pass"` exactly when its own download returned HTTP 200
and `"fail"` otherwise; a failed listing returns only the status code. -/
theorem c10_download_all_files :
    (∀ (dl : PyVal → Int) (items : List (List (String × PyVal))),
       download_all_files_content dl items =
         (items.filter (fun it => !isVNone (dict_get it "extension"))).map
           (download_entry dl)) ∧
    (∀ (dl : PyVal → Int) (items : List (List (String × PyVal)))
       (entry : List (String × PyVal)),
       entry ∈ download_all_files_content dl items →
       ∃ item, item ∈ items ∧ isVNone (dict_get item "extension") = false ∧
         entry = download_entry dl item) ∧
    (∀ (dl : PyVal → Int) (item : List (String × PyVal)),
       lookupKey "status" (download_entry dl item) =
         some (.vStr (if dl (dict_get item "name") = 200 then "pass" else "fail"))) ∧
    (∀ (dl : PyVal → Int) (item : List (String × PyVal)),
       lookupKey "extension" (download_entry dl item) =
         some (dict_get item "extension")) ∧
    (∀ (st : Int) (items : List (List (String × PyVal))) (dl : PyVal → Int),
       st ≠ 200 → download_all_files_result st items dl = ⟨st, none⟩) ∧
    (∀ (items : List (List (String × PyVal))) (dl : PyVal → Int),
       download_all_files_result 200 items dl =
         ⟨200, some (.recs (download_all_files_content dl items))⟩) := by
  have heq : ∀ (dl : PyVal → Int) (items : List (List (String × PyVal))),
      download_all_files_content dl items =
        (items.filter (fun it => !isVNone (dict_get it "extension"))).map
          (download_entry dl) := by
    intro dl items
    induction items with
    | nil => rfl
    | cons item rest ih =>
      unfold download_all_files_content
      cases hx : dict_get item "extension" with
      | vNone => simpa [List.filter, isVNone, hx] using ih
      | vStr s => simpa [List.filter, isVNone, hx] using ih
      | vInt n => simpa [List.filter, isVNone, hx] using ih
      | vDict fs => simpa [List.filter, isVNone, hx] using ih
      | vDT d => simpa [List.filter, isVNone, hx] using ih
  refine ⟨heq, ?_, fun dl item => rfl, fun dl item => rfl, ?_, ?_⟩
  · intro dl items entry hmem
    rw [heq] at hmem
    rcases List.mem_map.mp hmem with ⟨item, hitem, rfl⟩
    rcases List.mem_filter.mp hitem with ⟨hin, hp⟩
    exact ⟨item, hin, by simpa using hp, rfl⟩
  · intro st items dl h
    unfold download_all_files_result
    rw [if_pos h]
  · intro items dl
    unfold download_all_files_result
    rw [if_neg (fun hh : (200 : Int) ≠ 200 => hh rfl)]

/-- Witness for C10 at a concrete folder listing: one folder-like item (null
extension) and one file item; the folder item is skipped, the file item's
entry passes with an all-200 downloader, and a failed listing yields null
content. -/
theorem c10_download_all_files_witness :
    download_all_files_content (fun _ => 200)
        [[("id", .vStr "d1"), ("name", .vStr "Docs"), ("extension", .vNone)],
         [("id", .vStr "f1"), ("name", .vStr "a.txt"), ("extension", .vStr "txt")]] =
      [download_entry (fun _ => 200)
        [("id", .vStr "f1"), ("name", .vStr "a.txt"), ("extension", .vStr "txt")]] ∧
    (∃ item,
       item ∈ [[("id", PyVal.vStr "d1"), ("name", PyVal.vStr "Docs"), ("extension", PyVal.vNone)],
               [("id", PyVal.vStr "f1"), ("name", PyVal.vStr "a.txt"), ("extension", PyVal.vStr "txt")]] ∧
       isVNone (dict_get item "extension") = false ∧
       download_entry (fun _ => 200)
           [("id", PyVal.vStr "f1"), ("name", PyVal.vStr "a.txt"), ("extension", PyVal.vStr "txt")] =
         download_entry (fun _ => 200) item) ∧
    lookupKey "status" (download_entry (fun _ => 200)
        [("id", .vStr "f1"), ("name", .vStr "a.txt"), ("extension", .vStr "txt")]) =
      some (.vStr "pass") ∧
    download_all_files_result 404 [] (fun _ => 200) = ⟨404, none⟩ := by
  refine ⟨c10_download_all_files.1 (fun _ => 200) _, ?_, ?_, ?_⟩
  · exact c10_download_all_files.2.1 (fun _ => 200) _ _ (List.Mem.head _)
  · have h := c10_download_all_files.2.2.1 (fun _ => 200)
      [("id", .vStr "f1"), ("name", .vStr "a.txt"), ("extension", .vStr "txt")]
    simpa using h
  · exact c10_download_all_files.2.2.2.2.1 404 [] (fun _ => 200) (by decide)

/-! ## C2 -/

theorem validate_many_go_spec {α : Type} (v : List (String × Json) → Except VErr α)
    (items : List Json) (idx : Nat)
    (hno : ∀ fs e, Json.obj fs ∈ items → v fs ≠ .error (.uncaught e)) :
    validate_many_go v idx items =
      .ok (((items.enumFrom idx).map
              (fun p => (member_errs v p.2).map (fun e => (p.1, e)))).flatten,
           member_oks v items) := by
  induction items generalizing idx with
  | nil => rfl
  | cons j rest ih =>
    have hno' : ∀ fs e, Json.obj fs ∈ rest → v fs ≠ .error (.uncaught e) :=
      fun fs e hm => hno fs e (List.mem_cons_of_mem _ hm)
    unfold validate_many_go
    cases j with
    | obj fs =>
      cases hv : v fs with
      | ok a =>
        simp [hv, ih (idx + 1) hno', member_errs, member_oks, List.enumFrom,
          List.filterMap_cons]
      | error e =>
        cases e with
        | fieldErrors es =>
          simp [hv, ih (idx + 1) hno', member_errs, member_oks, List.enumFrom,
            List.filterMap_cons]
        | uncaught e =>
          exact absurd hv (hno fs e (List.mem_cons_self _ _))
    | null =>
      simp [ih (idx + 1) hno', member_errs, member_oks, List.enumFrom,
        List.filterMap_cons]
    | str s =>
      simp [ih (idx + 1) hno', member_errs, member_oks, List.enumFrom,
        List.filterMap_cons]
    | num n =>
      simp [ih (idx + 1) hno', member_errs, member_oks, List.enumFrom,
        List.filterMap_cons]
    | bool b =>
      simp [ih (idx + 1) hno', member_errs, member_oks, List.enumFrom,
        List.filterMap_cons]
    | arr xs =>
      simp [ih (idx + 1) hno', member_errs, member_oks, List.enumFrom,
        List.filterMap_cons]

/-- C2 (amended): list validation applies single-object validation to each
member; when any member is invalid the whole validation raises — no partial
list of the valid members is returned — but the raised error aggregates the
errors of every invalid member in order (first-encountered first): later
members are still processed, contrary to the claim's "raised before the later
members are processed". -/
theorem c2_list_validation_aggregates :
    (∀ (α : Type) (v : List (String × Json) → Except VErr α) (items : List Json),
       NoUncaught v items → all_item_errors v items = [] →
       validate_many v items = .ok (member_oks v items)) ∧
    (∀ (α : Type) (v : List (String × Json) → Except VErr α) (items : List Json),
       NoUncaught v items → all_item_errors v items ≠ [] →
       validate_many v items = .error (.itemErrors (all_item_errors v items))) := by
  constructor
  · intro α v items hno hnil
    unfold validate_many
    rw [validate_many_go_spec v items 0 hno]
    have hE : (((items.enumFrom 0).map
        (fun p => (member_errs v p.2).map (fun e => (p.1, e)))).flatten) =
        all_item_errors v items := rfl
    rw [hE, hnil]
  · intro α v items hno hne
    unfold validate_many
    rw [validate_many_go_spec v items 0 hno]
    have hE : (((items.enumFrom 0).map
        (fun p => (member_errs v p.2).map (fun e => (p.1, e)))).flatten) =
        all_item_errors v items := rfl
    rw [hE]
    cases hE2 : all_item_errors v items with
    | nil => exact absurd hE2 hne
    | cons a t => rfl

/-- Counterexample for C2 as stated: validating three raw objects where the
second and third both lack the required identity field raises one error that
contains the third member's error as well — the error is not "the first
validation error encountered, raised before the later members are processed"
(and indeed differs from the error that stopping at the second member would
produce). -/
theorem c2_fail_fast_counterexample :
    validate_many ListDir.validate [c2_good, c2_bad, c2_bad] =
      .error (.itemErrors [(1, .missing "id"), (2, .missing "id")]) ∧
    ManyErr.itemErrors [(1, ValErr.missing "id"), (2, ValErr.missing "id")] ≠
      ManyErr.itemErrors [(1, ValErr.missing "id")] :=
  ⟨rfl, by decide⟩

/-- Witness for C2 (amended) at concrete lists: an all-valid list validates to
its records; a list with two invalid members raises the aggregate of both
members' errors. -/
theorem c2_list_validation_aggregates_witness :
    validate_many ListDir.validate [c2_good] =
      .ok (member_oks ListDir.validate [c2_good]) ∧
    validate_many ListDir.validate [c2_good, c2_bad, c2_bad] =
      .error (.itemErrors (all_item_errors ListDir.validate [c2_good, c2_bad, c2_bad])) := by
  have hno1 : NoUncaught ListDir.validate [c2_good] := by
    intro fs e hm hcon
    simp only [c2_good, List.mem_singleton] at hm
    injection hm with hm
    subst hm
    have hok : isUncaughtErr (ListDir.validate
        [("id", .str "1"), ("name", .str "a.txt"),
         ("createdDateTime", .str "2024-01-01T00:00:00Z")]) = false := rfl
    rw [hcon] at hok
    cases hok
  have hno3 : NoUncaught ListDir.validate [c2_good, c2_bad, c2_bad] := by
    intro fs e hm hcon
    simp only [c2_good, c2_bad, List.mem_cons, List.mem_singleton,
      List.not_mem_nil, or_false] at hm
    rcases hm with hm | hm | hm <;>
      (injection hm with hm; subst hm) <;>
      first
      | (have hok : isUncaughtErr (ListDir.validate
            [("id", .str "1"), ("name", .str "a.txt"),
             ("createdDateTime", .str "2024-01-01T00:00:00Z")]) = false := rfl
         rw [hcon] at hok
         cases hok)
      | (have hok : isUncaughtErr (ListDir.validate
            [("name", .str "b.txt"),
             ("createdDateTime", .str "2024-01-01T00:00:00Z")]) = false := rfl
         rw [hcon] at hok
         cases hok)
  exact ⟨c2_list_validation_aggregates.1 ListDir ListDir.validate [c2_good] hno1 rfl,
    c2_list_validation_aggregates.2 ListDir ListDir.validate [c2_good, c2_bad, c2_bad]
      hno3 (by intro hcon; cases hcon)⟩

/-! ## Inversion of a successful `ListDir` validation -/

theorem valsStr_ok (k s : String) : valsStr k (.ok s) = [(k, .vStr s)] := rfl

theorem valsOptStr_ok (k : String) (o : Option String) :
    valsOptStr k (.ok o) = [(k, pyOfOptStr o)] := by cases o <;> rfl

theorem valsOptInt_ok (k : String) (o : Option Int) :
    valsOptInt k (.ok o) = [(k, pyOfOptInt o)] := by cases o <;> rfl

theorem valsOptDict_ok (k : String) (o : Option (List (String × Json))) :
    valsOptDict k (.ok o) = [(k, pyOfOptDict o)] := by cases o <;> rfl

theorem valsDT_ok (k : String) (d : DateTime) :
    valsDT k (.ok d) = [(k, .vDT d)] := rfl

theorem valsOptDT_ok (k : String) (o : Option DateTime) :
    valsOptDT k (.ok o) = [(k, pyOfOptDT o)] := by cases o <;> rfl

theorem valsOfOptStr_eq (k : String) (o : Option String) :
    valsOfOptStr k o = [(k, pyOfOptStr o)] := by cases o <;> rfl

/-- Inversion of `ListDir.validate raw = .ok r`: every field result succeeded
with the corresponding record field, and the three validators produced the
derived fields from the accumulated `values` dict (shown in reduced form). -/
theorem listDir_validate_ok_fields {raw : List (String × Json)} {r : ListDir}
    (h : ListDir.validate raw = .ok r) :
    reqStrField raw "id" "id" = .ok r.id ∧
    reqStrField raw "name" "name" = .ok r.name ∧
    ListDir.set_extension [("id", .vStr r.id), ("name", .vStr r.name)] =
      .ok r.extension ∧
    optIntField raw "size" "size" = .ok r.size ∧
    optStrField raw "path" "path" = .ok r.path ∧
    optStrField raw "webUrl" "web_url" = .ok r.web_url ∧
    optDictField raw "folder" "folder" = .ok r.folder ∧
    reqDTField raw "createdDateTime" "created_date_time" = .ok r.created_date_time ∧
    optDTField raw "lastModifiedDateTime" "last_modified_date_time" =
      .ok r.last_modified_date_time ∧
    optDictField raw "lastModifiedBy" "last_modified_by" = .ok r.last_modified_by ∧
    (match ListDir.set_last_modified_by_name (ListDir.vals_before_name r) with
     | .ok j => optStrOfJson "last_modified_by_name" j
     | .error _ => .error (.validatorRaised "last_modified_by_name")) =
      .ok r.last_modified_by_name ∧
    (match ListDir.set_last_modified_by_email (ListDir.vals_before_email r) with
     | .ok j => optStrOfJson "last_modified_by_email" j
     | .error _ => .error (.validatorRaised "last_modified_by_email")) =
      .ok r.last_modified_by_email := by
  simp only [ListDir.validate] at h
  cases h1 : reqStrField raw "id" "id" with
  | error e1 =>
    rw [h1] at h
    cases h2 : reqStrField raw "name" "name" with
    | error e2 => rw [h2] at h; cases h
    | ok nameV => rw [h2] at h; cases h
  | ok idV =>
    simp only [h1, valsStr_ok] at h
    cases h2 : reqStrField raw "name" "name" with
    | error e2 => rw [h2] at h; cases h
    | ok nameV =>
      simp only [h2, valsStr_ok, List.cons_append, List.nil_append] at h
      cases hext : ListDir.set_extension
          [("id", PyVal.vStr idV), ("name", PyVal.vStr nameV)] with
      | error e => rw [hext] at h; cases h
      | ok extV =>
        simp only [hext, valsOfOptStr_eq, List.cons_append, List.nil_append] at h
        cases h3 : optIntField raw "size" "size" with
        | error e3 => simp only [h3] at h; cases h
        | ok szV =>
        simp only [h3, valsOptInt_ok, List.cons_append, List.nil_append] at h
        cases h4 : optStrField raw "path" "path" with
        | error e4 => simp only [h4] at h; cases h
        | ok pV =>
        simp only [h4, valsOptStr_ok, List.cons_append, List.nil_append] at h
        cases h5 : optStrField raw "webUrl" "web_url" with
        | error e5 => simp only [h5] at h; cases h
        | ok wuV =>
        simp only [h5, valsOptStr_ok, List.cons_append, List.nil_append] at h
        cases h6 : optDictField raw "folder" "folder" with
        | error e6 => simp only [h6] at h; cases h
        | ok foV =>
        simp only [h6, valsOptDict_ok, List.cons_append, List.nil_append] at h
        cases h7 : reqDTField raw "createdDateTime" "created_date_time" with
        | error e7 => simp only [h7] at h; cases h
        | ok crV =>
        simp only [h7, valsDT_ok, List.cons_append, List.nil_append] at h
        cases h8 : optDTField raw "lastModifiedDateTime"
            "last_modified_date_time" with
        | error e8 => simp only [h8] at h; cases h
        | ok lmV =>
        simp only [h8, valsOptDT_ok, List.cons_append, List.nil_append] at h
        cases h9 : optDictField raw "lastModifiedBy" "last_modified_by" with
        | error e9 => simp only [h9] at h; cases h
        | ok lmbV =>
        simp only [h9, valsOptDict_ok, List.cons_append, List.nil_append] at h
        cases hname : (match ListDir.set_last_modified_by_name
            [("id", PyVal.vStr idV), ("name", PyVal.vStr nameV),
             ("extension", pyOfOptStr extV), ("size", pyOfOptInt szV),
             ("path", pyOfOptStr pV), ("web_url", pyOfOptStr wuV),
             ("folder", pyOfOptDict foV), ("created_date_time", PyVal.vDT crV),
             ("last_modified_date_time", pyOfOptDT lmV),
             ("last_modified_by", pyOfOptDict lmbV)] with
          | .ok j => optStrOfJson "last_modified_by_name" j
          | .error _ =>
            Except.error (ValErr.validatorRaised "last_modified_by_name")) with
        | error en => simp only [hname] at h; cases h
        | ok lmbnV =>
        simp only [hname, valsOptStr_ok, List.cons_append, List.nil_append] at h
        cases hemail : (match ListDir.set_last_modified_by_email
            [("id", PyVal.vStr idV), ("name", PyVal.vStr nameV),
             ("extension", pyOfOptStr extV), ("size", pyOfOptInt szV),
             ("path", pyOfOptStr pV), ("web_url", pyOfOptStr wuV),
             ("folder", pyOfOptDict foV), ("created_date_time", PyVal.vDT crV),
             ("last_modified_date_time", pyOfOptDT lmV),
             ("last_modified_by", pyOfOptDict lmbV),
             ("last_modified_by_name", pyOfOptStr lmbnV)] with
          | .ok j => optStrOfJson "last_modified_by_email" j
          | .error _ =>
            Except.error (ValErr.validatorRaised "last_modified_by_email")) with
        | error ee => simp only [hemail] at h; cases h
        | ok lmbeV =>
        simp only [hemail] at h
        injection h with h
        subst h
        exact ⟨rfl, rfl, hext, rfl, rfl, rfl, rfl, rfl, rfl, rfl, hname, hemail⟩

theorem reqDTField_ok_parse {raw : List (String × Json)} {key fn : String}
    {j : Json} {d : DateTime} (hj : lookupKey key raw = some j)
    (h : reqDTField raw key fn = .ok d) : parse_datetime j = .ok d := by
  unfold reqDTField at h
  split at h
  · cases h
  · cases h
  all_goals
    rename_i x heq
    rw [hj] at heq
    injection heq with heq
    subst heq
    split at h
    · rename_i d' hp
      injection h with h
      exact h ▸ hp
    · cases h

theorem optDTField_ok_parse {raw : List (String × Json)} {key fn : String}
    {j : Json} {o : Option DateTime} (hj : lookupKey key raw = some j)
    (hne : j ≠ .null) (h : optDTField raw key fn = .ok o) {d : DateTime}
    (hp : parse_datetime j = .ok d) : o = some d := by
  unfold optDTField at h
  split at h
  · rename_i heq
    rw [hj] at heq
    cases heq
  · rename_i heq
    rw [hj] at heq
    injection heq with heq
    exact absurd heq hne
  all_goals
    rename_i x heq
    rw [hj] at heq
    injection heq with heq
    subst heq
    split at h
    · rename_i d' hp2
      injection h with h
      rw [hp] at hp2
      injection hp2 with hp2
      rw [← h, hp2]
    · cases h

/-! ## C4 -/

/-- C4: for every raw directory-listing object that validates successfully,
reading back the record's non-derived, non-excluded fields yields exactly the
values present in the raw object under the corresponding remote field names
(strings and integers verbatim; the timestamps as the declared parse of the
raw value); the serialized `dict()` read-back agrees with the record. -/
theorem c4_round_trip :
    (∀ (raw : List (String × Json)) (r : ListDir),
       ListDir.validate raw = .ok r →
       (∀ s, lookupKey "id" raw = some (.str s) → r.id = s) ∧
       (∀ s, lookupKey "name" raw = some (.str s) → r.name = s) ∧
       (∀ n, lookupKey "size" raw = some (.num n) → r.size = some n) ∧
       (lookupKey "size" raw = none → r.size = none) ∧
       (∀ s, lookupKey "webUrl" raw = some (.str s) → r.web_url = some s) ∧
       (lookupKey "webUrl" raw = none → r.web_url = none) ∧
       (∀ j, lookupKey "createdDateTime" raw = some j →
          parse_datetime j = .ok r.created_date_time) ∧
       (∀ j d, lookupKey "lastModifiedDateTime" raw = some j → j ≠ .null →
          parse_datetime j = .ok d → r.last_modified_date_time = some d) ∧
       (lookupKey "lastModifiedDateTime" raw = none →
          r.last_modified_date_time = none)) ∧
    (∀ r : ListDir,
       lookupKey "id" (ListDir.dict r) = some (.vStr r.id) ∧
       lookupKey "name" (ListDir.dict r) = some (.vStr r.name) ∧
       lookupKey "size" (ListDir.dict r) = some (pyOfOptInt r.size) ∧
       lookupKey "web_url" (ListDir.dict r) = some (pyOfOptStr r.web_url) ∧
       lookupKey "created_date_time" (ListDir.dict r) =
         some (.vDT r.created_date_time) ∧
       lookupKey "last_modified_date_time" (ListDir.dict r) =
         some (pyOfOptDT r.last_modified_date_time)) := by
  constructor
  · intro raw r h
    obtain ⟨h1, h2, _, h3, _, h5, _, h7, h8, _, _, _⟩ :=
      listDir_validate_ok_fields h
    refine ⟨?_, ?_, ?_, ?_, ?_, ?_, ?_, ?_, ?_⟩
    · intro s hs
      exact (Except.ok.inj ((reqStrField_of_str hs).symm.trans h1)).symm
    · intro s hs
      exact (Except.ok.inj ((reqStrField_of_str hs).symm.trans h2)).symm
    · intro n hn
      exact (Except.ok.inj ((optIntField_of_num hn).symm.trans h3)).symm
    · intro hn
      exact (Except.ok.inj ((optIntField_of_none hn).symm.trans h3)).symm
    · intro s hs
      exact (Except.ok.inj ((optStrField_of_str hs).symm.trans h5)).symm
    · intro hn
      exact (Except.ok.inj ((optStrField_of_none hn).symm.trans h5)).symm
    · intro j hj
      exact reqDTField_ok_parse hj h7
    · intro j d hj hne hp
      exact optDTField_ok_parse hj hne h8 hp
    · intro hn
      exact (Except.ok.inj ((optDTField_of_none hn).symm.trans h8)).symm
  · intro r
    exact ⟨rfl, rfl, rfl, rfl, rfl, rfl⟩

/-- Witness for C4: the spec's scenario raw object
`{"id": "1", "name": "a.txt", "createdDateTime": "2024-01-01T00:00:00Z"}`
validates and reads back `id = "1"`, `name = "a.txt"`, the parsed timestamp,
and nulls for the absent optionals. -/
theorem c4_round_trip_witness :
    ∃ r : ListDir, ListDir.validate
        [("id", .str "1"), ("name", .str "a.txt"),
         ("createdDateTime", .str "2024-01-01T00:00:00Z")] = .ok r ∧
      r.id = "1" ∧ r.name = "a.txt" ∧ r.size = none ∧ r.web_url = none ∧
      parse_datetime (.str "2024-01-01T00:00:00Z") = .ok r.created_date_time ∧
      r.last_modified_date_time = none := by
  refine ⟨ListDir.mk "1" "a.txt" (some "txt") none none none none dt20240101
      none none none none, rfl, ?_⟩
  have h := (c4_round_trip.1
    [("id", .str "1"), ("name", .str "a.txt"),
     ("createdDateTime", .str "2024-01-01T00:00:00Z")]
    (ListDir.mk "1" "a.txt" (some "txt") none none none none dt20240101
      none none none none) rfl)
  exact ⟨h.1 "1" rfl, h.2.1 "a.txt" rfl, h.2.2.2.1 rfl, h.2.2.2.2.2.1 rfl,
    h.2.2.2.2.2.2.1 (.str "2024-01-01T00:00:00Z") rfl, h.2.2.2.2.2.2.2.2 rfl⟩

/-! ## C3: behaviour of the `lastModifiedBy` validators -/

theorem set_lmb_name_of_vNone {values : List (String × PyVal)}
    (hv : values_get values "last_modified_by" = .vNone) :
    ListDir.set_last_modified_by_name values = .ok .null := by
  unfold ListDir.set_last_modified_by_name
  rw [hv]

theorem set_lmb_name_user_none {values : List (String × PyVal)}
    {fs : List (String × Json)}
    (hv : values_get values "last_modified_by" = .vDict fs)
    (hu : lookupKey "user" fs = none) :
    ListDir.set_last_modified_by_name values = .ok .null := by
  unfold ListDir.set_last_modified_by_name
  rw [hv]
  cases fs with
  | nil => rfl
  | cons kv fs' => simp [hu]

theorem set_lmb_name_display_none {values : List (String × PyVal)}
    {fs ufs : List (String × Json)}
    (hv : values_get values "last_modified_by" = .vDict fs)
    (hu : lookupKey "user" fs = some (.obj ufs))
    (hd : lookupKey "displayName" ufs = none) :
    ListDir.set_last_modified_by_name values = .ok .null := by
  unfold ListDir.set_last_modified_by_name
  rw [hv]
  cases fs with
  | nil => cases hu
  | cons kv fs' => simp [hu, pyContains, hd]

theorem set_lmb_name_display_some {values : List (String × PyVal)}
    {fs ufs : List (String × Json)} {v : Json}
    (hv : values_get values "last_modified_by" = .vDict fs)
    (hu : lookupKey "user" fs = some (.obj ufs))
    (hd : lookupKey "displayName" ufs = some v) :
    ListDir.set_last_modified_by_name values = .ok v := by
  unfold ListDir.set_last_modified_by_name
  rw [hv]
  cases fs with
  | nil => cases hu
  | cons kv fs' => simp [hu, pyContains, hd]

theorem set_lmb_email_of_vNone {values : List (String × PyVal)}
    (hv : values_get values "last_modified_by" = .vNone) :
    ListDir.set_last_modified_by_email values = .ok .null := by
  unfold ListDir.set_last_modified_by_email
  rw [hv]

theorem set_lmb_email_user_none {values : List (String × PyVal)}
    {fs : List (String × Json)}
    (hv : values_get values "last_modified_by" = .vDict fs)
    (hu : lookupKey "user" fs = none) :
    ListDir.set_last_modified_by_email values = .ok .null := by
  unfold ListDir.set_last_modified_by_email
  rw [hv]
  cases fs with
  | nil => rfl
  | cons kv fs' => simp [hu]

theorem set_lmb_email_key_none {values : List (String × PyVal)}
    {fs ufs : List (String × Json)}
    (hv : values_get values "last_modified_by" = .vDict fs)
    (hu : lookupKey "user" fs = some (.obj ufs))
    (hd : lookupKey "email" ufs = none) :
    ListDir.set_last_modified_by_email values = .ok .null := by
  unfold ListDir.set_last_modified_by_email
  rw [hv]
  cases fs with
  | nil => cases hu
  | cons kv fs' => simp [hu, pyContains, hd]

theorem set_lmb_email_key_some {values : List (String × PyVal)}
    {fs ufs : List (String × Json)} {v : Json}
    (hv : values_get values "last_modified_by" = .vDict fs)
    (hu : lookupKey "user" fs = some (.obj ufs))
    (hd : lookupKey "email" ufs = some v) :
    ListDir.set_last_modified_by_email values = .ok v := by
  unfold ListDir.set_last_modified_by_email
  rw [hv]
  cases fs with
  | nil => cases hu
  | cons kv fs' => simp [hu, pyContains, hd]

/-- `GetFileInfo.set_last_modified_by_email` is the same code as the
`ListDir` validator of that name. -/
theorem getFileInfo_email_eq (values : List (String × PyVal)) :
    GetFileInfo.set_last_modified_by_email values =
      ListDir.set_last_modified_by_email values := rfl

/-- Inversion of `GetFileInfo.validate raw = .ok r`. -/
theorem getFileInfo_validate_ok_fields {raw : List (String × Json)}
    {r : GetFileInfo} (h : GetFileInfo.validate raw = .ok r) :
    reqStrField raw "id" "id" = .ok r.id ∧
    reqStrField raw "name" "name" = .ok r.name ∧
    optStrField raw "webUrl" "web_url" = .ok r.web_url ∧
    optIntField raw "size" "size" = .ok r.size ∧
    reqDTField raw "createdDateTime" "created_date_time" = .ok r.created_date_time ∧
    optDTField raw "lastModifiedDateTime" "last_modified_date_time" =
      .ok r.last_modified_date_time ∧
    optDictField raw "lastModifiedBy" "last_modified_by" = .ok r.last_modified_by ∧
    (match GetFileInfo.set_last_modified_by_email
        (GetFileInfo.vals_before_email r) with
     | .ok j => optStrOfJson "last_modified_by_email" j
     | .error _ => .error (.validatorRaised "last_modified_by_email")) =
      .ok r.last_modified_by_email := by
  simp only [GetFileInfo.validate] at h
  cases h1 : reqStrField raw "id" "id" with
  | error e1 => rw [h1] at h; cases h
  | ok idV =>
  simp only [h1, valsStr_ok] at h
  cases h2 : reqStrField raw "name" "name" with
  | error e2 => rw [h2] at h; cases h
  | ok nameV =>
  simp only [h2, valsStr_ok, List.cons_append, List.nil_append] at h
  cases h3 : optStrField raw "webUrl" "web_url" with
  | error e3 => rw [h3] at h; cases h
  | ok wuV =>
  simp only [h3, valsOptStr_ok, List.cons_append, List.nil_append] at h
  cases h4 : optIntField raw "size" "size" with
  | error e4 => rw [h4] at h; cases h
  | ok szV =>
  simp only [h4, valsOptInt_ok, List.cons_append, List.nil_append] at h
  cases h5 : reqDTField raw "createdDateTime" "created_date_time" with
  | error e5 => rw [h5] at h; cases h
  | ok crV =>
  simp only [h5, valsDT_ok, List.cons_append, List.nil_append] at h
  cases h6 : optDTField raw "lastModifiedDateTime" "last_modified_date_time" with
  | error e6 => rw [h6] at h; cases h
  | ok lmV =>
  simp only [h6, valsOptDT_ok, List.cons_append, List.nil_append] at h
  cases h7 : optDictField raw "lastModifiedBy" "last_modified_by" with
  | error e7 => rw [h7] at h; cases h
  | ok lmbV =>
  simp only [h7, valsOptDict_ok, List.cons_append, List.nil_append] at h
  cases hemail : (match GetFileInfo.set_last_modified_by_email
      [("id", PyVal.vStr idV), ("name", PyVal.vStr nameV),
       ("web_url", pyOfOptStr wuV), ("size", pyOfOptInt szV),
       ("created_date_time", PyVal.vDT crV),
       ("last_modified_date_time", pyOfOptDT lmV),
       ("last_modified_by", pyOfOptDict lmbV)] with
    | .ok j => optStrOfJson "last_modified_by_email" j
    | .error _ =>
      Except.error (ValErr.validatorRaised "last_modified_by_email")) with
  | error ee => simp only [hemail] at h; cases h
  | ok lmbeV =>
  simp only [hemail] at h
  injection h with h
  subst h
  exact ⟨rfl, rfl, rfl, rfl, rfl, rfl, rfl, hemail⟩

theorem lmb_field_result_of_name {values : List (String × PyVal)} {X : Json}
    (hs : ListDir.set_last_modified_by_name values = .ok X) {o : Option String}
    (ho : optStrOfJson "last_modified_by_name" X = .ok o) :
    (match ListDir.set_last_modified_by_name values with
     | .ok j => optStrOfJson "last_modified_by_name" j
     | .error _ => .error (.validatorRaised "last_modified_by_name")) = .ok o := by
  rw [hs]
  exact ho

theorem lmb_field_result_of_email {values : List (String × PyVal)} {X : Json}
    (hs : ListDir.set_last_modified_by_email values = .ok X) {o : Option String}
    (ho : optStrOfJson "last_modified_by_email" X = .ok o) :
    (match ListDir.set_last_modified_by_email values with
     | .ok j => optStrOfJson "last_modified_by_email" j
     | .error _ => .error (.validatorRaised "last_modified_by_email")) = .ok o := by
  rw [hs]
  exact ho

theorem lmb_field_result_of_email_gfi {values : List (String × PyVal)} {X : Json}
    (hs : ListDir.set_last_modified_by_email values = .ok X) {o : Option String}
    (ho : optStrOfJson "last_modified_by_email" X = .ok o) :
    (match GetFileInfo.set_last_modified_by_email values with
     | .ok j => optStrOfJson "last_modified_by_email" j
     | .error _ => .error (.validatorRaised "last_modified_by_email")) = .ok o := by
  rw [getFileInfo_email_eq, hs]
  exact ho

/-- C3: for every raw `lastModifiedBy` value handed to the `ListDir` or
`GetFileInfo` schema that is null, missing, lacks a `user` key, or whose
`user` object lacks `displayName`/`email`, the corresponding derived field
independently resolves to null, and the `lastModifiedBy` pipeline never
produces a validation error for such values; the derived name/email equal the
`displayName`/`email` values under `user` exactly when present. -/
theorem c3_last_modified_by_leniency :
    (∀ (raw : List (String × Json)) (r : ListDir), ListDir.validate raw = .ok r →
       lookupKey "lastModifiedBy" raw = none →
       r.last_modified_by_name = none ∧ r.last_modified_by_email = none) ∧
    (∀ (raw : List (String × Json)) (r : ListDir), ListDir.validate raw = .ok r →
       lookupKey "lastModifiedBy" raw = some .null →
       r.last_modified_by_name = none ∧ r.last_modified_by_email = none) ∧
    (∀ (raw : List (String × Json)) (r : ListDir) (fs : List (String × Json)),
       ListDir.validate raw = .ok r →
       lookupKey "lastModifiedBy" raw = some (.obj fs) →
       lookupKey "user" fs = none →
       r.last_modified_by_name = none ∧ r.last_modified_by_email = none) ∧
    (∀ (raw : List (String × Json)) (r : ListDir) (fs ufs : List (String × Json)),
       ListDir.validate raw = .ok r →
       lookupKey "lastModifiedBy" raw = some (.obj fs) →
       lookupKey "user" fs = some (.obj ufs) →
       (lookupKey "displayName" ufs = none → r.last_modified_by_name = none) ∧
       (∀ s, lookupKey "displayName" ufs = some (.str s) →
          r.last_modified_by_name = some s) ∧
       (lookupKey "email" ufs = none → r.last_modified_by_email = none) ∧
       (∀ s, lookupKey "email" ufs = some (.str s) →
          r.last_modified_by_email = some s)) ∧
    (∀ (raw : List (String × Json)) (values : List (String × PyVal)),
       LmbKeyAbsent "displayName" (lookupKey "lastModifiedBy" raw) →
       ∃ o, optDictField raw "lastModifiedBy" "last_modified_by" = .ok o ∧
         (values_get values "last_modified_by" = pyOfOptDict o →
          (match ListDir.set_last_modified_by_name values with
           | .ok j => optStrOfJson "last_modified_by_name" j
           | .error _ => .error (.validatorRaised "last_modified_by_name")) =
            .ok none)) ∧
    (∀ (raw : List (String × Json)) (values : List (String × PyVal)),
       LmbKeyAbsent "email" (lookupKey "lastModifiedBy" raw) →
       ∃ o, optDictField raw "lastModifiedBy" "last_modified_by" = .ok o ∧
         (values_get values "last_modified_by" = pyOfOptDict o →
          (match ListDir.set_last_modified_by_email values with
           | .ok j => optStrOfJson "last_modified_by_email" j
           | .error _ => .error (.validatorRaised "last_modified_by_email")) =
            .ok none)) ∧
    (∀ (raw : List (String × Json)) (r : GetFileInfo),
       GetFileInfo.validate raw = .ok r →
       (lookupKey "lastModifiedBy" raw = none → r.last_modified_by_email = none) ∧
       (lookupKey "lastModifiedBy" raw = some .null →
          r.last_modified_by_email = none) ∧
       (∀ fs, lookupKey "lastModifiedBy" raw = some (.obj fs) →
          lookupKey "user" fs = none → r.last_modified_by_email = none) ∧
       (∀ fs ufs, lookupKey "lastModifiedBy" raw = some (.obj fs) →
          lookupKey "user" fs = some (.obj ufs) →
          (lookupKey "email" ufs = none → r.last_modified_by_email = none) ∧
          (∀ s, lookupKey "email" ufs = some (.str s) →
             r.last_modified_by_email = some s))) := by
  refine ⟨?_, ?_, ?_, ?_, ?_, ?_, ?_⟩
  · intro raw r h hl
    obtain ⟨_, _, _, _, _, _, _, _, _, h10, h11, h12⟩ := listDir_validate_ok_fields h
    have hlm : r.last_modified_by = none :=
      (Except.ok.inj ((optDictField_of_none hl).symm.trans h10)).symm
    have hv : values_get (ListDir.vals_before_name r) "last_modified_by" =
        PyVal.vNone := by
      show pyOfOptDict r.last_modified_by = PyVal.vNone
      rw [hlm]
      rfl
    have hv2 : values_get (ListDir.vals_before_email r) "last_modified_by" =
        PyVal.vNone := by
      show pyOfOptDict r.last_modified_by = PyVal.vNone
      rw [hlm]
      rfl
    exact ⟨Except.ok.inj
        (h11.symm.trans (lmb_field_result_of_name (set_lmb_name_of_vNone hv) rfl)),
      Except.ok.inj
        (h12.symm.trans (lmb_field_result_of_email (set_lmb_email_of_vNone hv2) rfl))⟩
  · intro raw r h hl
    obtain ⟨_, _, _, _, _, _, _, _, _, h10, h11, h12⟩ := listDir_validate_ok_fields h
    have hlm : r.last_modified_by = none :=
      (Except.ok.inj ((optDictField_of_null hl).symm.trans h10)).symm
    have hv : values_get (ListDir.vals_before_name r) "last_modified_by" =
        PyVal.vNone := by
      show pyOfOptDict r.last_modified_by = PyVal.vNone
      rw [hlm]
      rfl
    have hv2 : values_get (ListDir.vals_before_email r) "last_modified_by" =
        PyVal.vNone := by
      show pyOfOptDict r.last_modified_by = PyVal.vNone
      rw [hlm]
      rfl
    exact ⟨Except.ok.inj
        (h11.symm.trans (lmb_field_result_of_name (set_lmb_name_of_vNone hv) rfl)),
      Except.ok.inj
        (h12.symm.trans (lmb_field_result_of_email (set_lmb_email_of_vNone hv2) rfl))⟩
  · intro raw r fs h hl hu
    obtain ⟨_, _, _, _, _, _, _, _, _, h10, h11, h12⟩ := listDir_validate_ok_fields h
    have hlm : r.last_modified_by = some fs :=
      (Except.ok.inj ((optDictField_of_obj hl).symm.trans h10)).symm
    have hv : values_get (ListDir.vals_before_name r) "last_modified_by" =
        PyVal.vDict fs := by
      show pyOfOptDict r.last_modified_by = PyVal.vDict fs
      rw [hlm]
      rfl
    have hv2 : values_get (ListDir.vals_before_email r) "last_modified_by" =
        PyVal.vDict fs := by
      show pyOfOptDict r.last_modified_by = PyVal.vDict fs
      rw [hlm]
      rfl
    exact ⟨Except.ok.inj
        (h11.symm.trans (lmb_field_result_of_name (set_lmb_name_user_none hv hu) rfl)),
      Except.ok.inj
        (h12.symm.trans (lmb_field_result_of_email (set_lmb_email_user_none hv2 hu) rfl))⟩
  · intro raw r fs ufs h hl hu
    obtain ⟨_, _, _, _, _, _, _, _, _, h10, h11, h12⟩ := listDir_validate_ok_fields h
    have hlm : r.last_modified_by = some fs :=
      (Except.ok.inj ((optDictField_of_obj hl).symm.trans h10)).symm
    have hv : values_get (ListDir.vals_before_name r) "last_modified_by" =
        PyVal.vDict fs := by
      show pyOfOptDict r.last_modified_by = PyVal.vDict fs
      rw [hlm]
      rfl
    have hv2 : values_get (ListDir.vals_before_email r) "last_modified_by" =
        PyVal.vDict fs := by
      show pyOfOptDict r.last_modified_by = PyVal.vDict fs
      rw [hlm]
      rfl
    refine ⟨?_, ?_, ?_, ?_⟩
    · intro hd
      exact Except.ok.inj
        (h11.symm.trans (lmb_field_result_of_name (set_lmb_name_display_none hv hu hd) rfl))
    · intro s hd
      exact Except.ok.inj
        (h11.symm.trans (lmb_field_result_of_name (set_lmb_name_display_some hv hu hd) rfl))
    · intro hd
      exact Except.ok.inj
        (h12.symm.trans (lmb_field_result_of_email (set_lmb_email_key_none hv2 hu hd) rfl))
    · intro s hd
      exact Except.ok.inj
        (h12.symm.trans (lmb_field_result_of_email (set_lmb_email_key_some hv2 hu hd) rfl))
  · intro raw values hdeg
    cases hl : lookupKey "lastModifiedBy" raw with
    | none =>
      exact ⟨none, optDictField_of_none hl,
        fun hv => lmb_field_result_of_name (set_lmb_name_of_vNone hv) rfl⟩
    | some j =>
      rw [hl] at hdeg
      cases j with
      | null =>
        exact ⟨none, optDictField_of_null hl,
          fun hv => lmb_field_result_of_name (set_lmb_name_of_vNone hv) rfl⟩
      | obj fs =>
        refine ⟨some fs, optDictField_of_obj hl, fun hv => ?_⟩
        rcases hdeg with hu | ⟨ufs, hu, hd⟩
        · exact lmb_field_result_of_name (set_lmb_name_user_none hv hu) rfl
        · exact lmb_field_result_of_name (set_lmb_name_display_none hv hu hd) rfl
      | str s => cases hdeg
      | num n => cases hdeg
      | bool b => cases hdeg
      | arr xs => cases hdeg
  · intro raw values hdeg
    cases hl : lookupKey "lastModifiedBy" raw with
    | none =>
      exact ⟨none, optDictField_of_none hl,
        fun hv => lmb_field_result_of_email (set_lmb_email_of_vNone hv) rfl⟩
    | some j =>
      rw [hl] at hdeg
      cases j with
      | null =>
        exact ⟨none, optDictField_of_null hl,
          fun hv => lmb_field_result_of_email (set_lmb_email_of_vNone hv) rfl⟩
      | obj fs =>
        refine ⟨some fs, optDictField_of_obj hl, fun hv => ?_⟩
        rcases hdeg with hu | ⟨ufs, hu, hd⟩
        · exact lmb_field_result_of_email (set_lmb_email_user_none hv hu) rfl
        · exact lmb_field_result_of_email (set_lmb_email_key_none hv hu hd) rfl
      | str s => cases hdeg
      | num n => cases hdeg
      | bool b => cases hdeg
      | arr xs => cases hdeg
  · intro raw r h
    obtain ⟨_, _, _, _, _, _, h7, h8⟩ := getFileInfo_validate_ok_fields h
    refine ⟨?_, ?_, ?_, ?_⟩
    · intro hl
      have hlm : r.last_modified_by = none :=
        (Except.ok.inj ((optDictField_of_none hl).symm.trans h7)).symm
      have hv : values_get (GetFileInfo.vals_before_email r) "last_modified_by" =
          PyVal.vNone := by
        show pyOfOptDict r.last_modified_by = PyVal.vNone
        rw [hlm]
        rfl
      exact Except.ok.inj
        (h8.symm.trans (lmb_field_result_of_email_gfi (set_lmb_email_of_vNone hv) rfl))
    · intro hl
      have hlm : r.last_modified_by = none :=
        (Except.ok.inj ((optDictField_of_null hl).symm.trans h7)).symm
      have hv : values_get (GetFileInfo.vals_before_email r) "last_modified_by" =
          PyVal.vNone := by
        show pyOfOptDict r.last_modified_by = PyVal.vNone
        rw [hlm]
        rfl
      exact Except.ok.inj
        (h8.symm.trans (lmb_field_result_of_email_gfi (set_lmb_email_of_vNone hv) rfl))
    · intro fs hl hu
      have hlm : r.last_modified_by = some fs :=
        (Except.ok.inj ((optDictField_of_obj hl).symm.trans h7)).symm
      have hv : values_get (GetFileInfo.vals_before_email r) "last_modified_by" =
          PyVal.vDict fs := by
        show pyOfOptDict r.last_modified_by = PyVal.vDict fs
        rw [hlm]
        rfl
      exact Except.ok.inj
        (h8.symm.trans (lmb_field_result_of_email_gfi (set_lmb_email_user_none hv hu) rfl))
    · intro fs ufs hl hu
      have hlm : r.last_modified_by = some fs :=
        (Except.ok.inj ((optDictField_of_obj hl).symm.trans h7)).symm
      have hv : values_get (GetFileInfo.vals_before_email r) "last_modified_by" =
          PyVal.vDict fs := by
        show pyOfOptDict r.last_modified_by = PyVal.vDict fs
        rw [hlm]
        rfl
      constructor
      · intro hd
        exact Except.ok.inj
          (h8.symm.trans (lmb_field_result_of_email_gfi (set_lmb_email_key_none hv hu hd) rfl))
      · intro s hd
        exact Except.ok.inj
          (h8.symm.trans (lmb_field_result_of_email_gfi (set_lmb_email_key_some hv hu hd) rfl))

/-- Witness for C3 at concrete raw objects: a missing `lastModifiedBy` gives
null derived fields; a `lastModifiedBy` whose `user` has an `email` but no
`displayName` gives a null name and that email, without any error; the
name-derivation pipeline yields `.ok None` on a `user` object lacking
`displayName`; the file-info shape behaves the same. -/
theorem c3_last_modified_by_leniency_witness :
    (∃ r : ListDir, ListDir.validate
        [("id", .str "1"), ("name", .str "a.txt"),
         ("createdDateTime", .str "2024-01-01T00:00:00Z")] = .ok r ∧
      r.last_modified_by_name = none ∧ r.last_modified_by_email = none) ∧
    (∃ r : ListDir, ListDir.validate
        [("id", .str "1"), ("name", .str "a.txt"),
         ("createdDateTime", .str "2024-01-01T00:00:00Z"),
         ("lastModifiedBy", .obj [("user", .obj [("email", .str "b@x.com")])])] =
        .ok r ∧
      r.last_modified_by_name = none ∧ r.last_modified_by_email = some "b@x.com") ∧
    (match ListDir.set_last_modified_by_name
        [("last_modified_by", PyVal.vDict [("user", Json.obj [])])] with
     | .ok j => optStrOfJson "last_modified_by_name" j
     | .error _ => .error (.validatorRaised "last_modified_by_name")) =
      .ok none ∧
    (∃ r : GetFileInfo, GetFileInfo.validate
        [("id", .str "f1"), ("name", .str "a.txt"),
         ("createdDateTime", .str "2024-01-01T00:00:00Z")] = .ok r ∧
      r.last_modified_by_email = none) := by
  refine ⟨?_, ?_, ?_, ?_⟩
  · refine ⟨ListDir.mk "1" "a.txt" (some "txt") none none none none dt20240101
      none none none none, rfl, ?_⟩
    exact c3_last_modified_by_leniency.1
      [("id", .str "1"), ("name", .str "a.txt"),
       ("createdDateTime", .str "2024-01-01T00:00:00Z")] _ rfl rfl
  · refine ⟨ListDir.mk "1" "a.txt" (some "txt") none none none none dt20240101
      none (some [("user", .obj [("email", .str "b@x.com")])]) none
      (some "b@x.com"), rfl, ?_⟩
    have h4 := c3_last_modified_by_leniency.2.2.2.1
      [("id", .str "1"), ("name", .str "a.txt"),
       ("createdDateTime", .str "2024-01-01T00:00:00Z"),
       ("lastModifiedBy", .obj [("user", .obj [("email", .str "b@x.com")])])] _
      [("user", Json.obj [("email", Json.str "b@x.com")])]
      [("email", Json.str "b@x.com")] rfl rfl rfl
    exact ⟨h4.1 rfl, h4.2.2.2 "b@x.com" rfl⟩
  · obtain ⟨o, ho, himp⟩ := c3_last_modified_by_leniency.2.2.2.2.1
      [("lastModifiedBy", Json.obj [("user", Json.obj [])])]
      [("last_modified_by", PyVal.vDict [("user", Json.obj [])])]
      (Or.inr ⟨[], rfl, rfl⟩)
    have hoeq : o = some [("user", Json.obj [])] :=
      Except.ok.inj (ho.symm.trans rfl)
    subst hoeq
    exact himp rfl
  · refine ⟨GetFileInfo.mk "f1" "a.txt" none none dt20240101 none none none,
      rfl, ?_⟩
    exact (c3_last_modified_by_leniency.2.2.2.2.2.2
      [("id", .str "f1"), ("name", .str "a.txt"),
       ("createdDateTime", .str "2024-01-01T00:00:00Z")] _ rfl).1 rfl

/-! ## C6 -/

theorem GetSiteInfo.validate_error_chars {raw : List (String × Json)}
    (hsome : errList (reqStrField raw "id" "id") ++
        errList (optStrField raw "name" "name") ++
        errList (optStrField raw "displayName" "display_name") ++
        errList (optStrField raw "webUrl" "web_url") ++
        errList (reqDTField raw "createdDateTime" "created_date_time") ++
        errList (optDTField raw "lastModifiedDateTime" "last_modified_date_time")
        ≠ []) :
    GetSiteInfo.validate raw = .error (.fieldErrors
      (errList (reqStrField raw "id" "id") ++
       errList (optStrField raw "name" "name") ++
       errList (optStrField raw "displayName" "display_name") ++
       errList (optStrField raw "webUrl" "web_url") ++
       errList (reqDTField raw "createdDateTime" "created_date_time") ++
       errList (optDTField raw "lastModifiedDateTime" "last_modified_date_time"))) := by
  revert hsome
  unfold GetSiteInfo.validate
  cases reqStrField raw "id" "id" <;>
    cases optStrField raw "name" "name" <;>
    cases optStrField raw "displayName" "display_name" <;>
    cases optStrField raw "webUrl" "web_url" <;>
    cases reqDTField raw "createdDateTime" "created_date_time" <;>
    cases optDTField raw "lastModifiedDateTime" "last_modified_date_time" <;>
    intro hsome <;>
    first
    | rfl
    | exact absurd rfl hsome

/-- C6 (amended): schema construction fails when a required field (identity
or creation timestamp) is absent, when the identity field is null or of a
type not coercible to a string (an object or array — but a number is coerced,
not rejected), or when the creation timestamp is a string that parses neither
as a number nor as a datetime; with the required fields present and
well-typed, missing optional fields default to null without error. -/
theorem c6_required_fields :
    (∀ raw : List (String × Json), lookupKey "id" raw = none →
       ∃ es, GetSiteInfo.validate raw = .error (.fieldErrors es) ∧
         ValErr.missing "id" ∈ es) ∧
    (∀ raw : List (String × Json), lookupKey "createdDateTime" raw = none →
       ∃ es, GetSiteInfo.validate raw = .error (.fieldErrors es) ∧
         ValErr.missing "created_date_time" ∈ es) ∧
    (∀ raw : List (String × Json), lookupKey "id" raw = some .null →
       ∃ es, GetSiteInfo.validate raw = .error (.fieldErrors es) ∧
         ValErr.noneNotAllowed "id" ∈ es) ∧
    (∀ (raw : List (String × Json)) (fs : List (String × Json)),
       lookupKey "id" raw = some (.obj fs) →
       ∃ es, GetSiteInfo.validate raw = .error (.fieldErrors es) ∧
         ValErr.strType "id" ∈ es) ∧
    (∀ (raw : List (String × Json)) (xs : List Json),
       lookupKey "id" raw = some (.arr xs) →
       ∃ es, GetSiteInfo.validate raw = .error (.fieldErrors es) ∧
         ValErr.strType "id" ∈ es) ∧
    (∀ (raw : List (String × Json)) (s : String),
       lookupKey "createdDateTime" raw = some (.str s) →
       pyIntOfString? s = none → pyFloatAccepts s = false →
       parseDateTimeString s = none →
       ∃ es, GetSiteInfo.validate raw = .error (.fieldErrors es) ∧
         ValErr.datetimeType "created_date_time" ∈ es) ∧
    (∀ (raw : List (String × Json)) (i : String) (j : Json) (d : DateTime),
       lookupKey "id" raw = some (.str i) →
       lookupKey "createdDateTime" raw = some j → parse_datetime j = .ok d →
       lookupKey "name" raw = none → lookupKey "displayName" raw = none →
       lookupKey "webUrl" raw = none → lookupKey "lastModifiedDateTime" raw = none →
       GetSiteInfo.validate raw = .ok ⟨i, none, none, none, d, none⟩) := by
  refine ⟨?_, ?_, ?_, ?_, ?_, ?_, ?_⟩
  · intro raw h
    have hid : reqStrField raw "id" "id" = .error (.missing "id") := by
      unfold reqStrField
      rw [h]
    exact ⟨_, GetSiteInfo.validate_error_chars (by rw [hid]; simp [errList]),
      by rw [hid]; simp [errList]⟩
  · intro raw h
    have hdt : reqDTField raw "createdDateTime" "created_date_time" =
        .error (.missing "created_date_time") := by
      unfold reqDTField
      rw [h]
    exact ⟨_, GetSiteInfo.validate_error_chars (by rw [hdt]; simp [errList]),
      by rw [hdt]; simp [errList]⟩
  · intro raw h
    have hid : reqStrField raw "id" "id" = .error (.noneNotAllowed "id") := by
      unfold reqStrField
      rw [h]
    exact ⟨_, GetSiteInfo.validate_error_chars (by rw [hid]; simp [errList]),
      by rw [hid]; simp [errList]⟩
  · intro raw fs h
    have hid : reqStrField raw "id" "id" = .error (.strType "id") := by
      unfold reqStrField
      rw [h]
      rfl
    exact ⟨_, GetSiteInfo.validate_error_chars (by rw [hid]; simp [errList]),
      by rw [hid]; simp [errList]⟩
  · intro raw xs h
    have hid : reqStrField raw "id" "id" = .error (.strType "id") := by
      unfold reqStrField
      rw [h]
      rfl
    exact ⟨_, GetSiteInfo.validate_error_chars (by rw [hid]; simp [errList]),
      by rw [hid]; simp [errList]⟩
  · intro raw s h hint hfloat hparse
    have hdt : reqDTField raw "createdDateTime" "created_date_time" =
        .error (.datetimeType "created_date_time") := by
      simp only [reqDTField, parse_datetime, h, hint, hfloat, hparse,
        Bool.false_eq_true, if_false]
    exact ⟨_, GetSiteInfo.validate_error_chars (by rw [hdt]; simp [errList]),
      by rw [hdt]; simp [errList]⟩
  · intro raw i j d hi hj hp hn hdn hwu hlm
    unfold GetSiteInfo.validate
    rw [reqStrField_of_str hi, optStrField_of_none hn, optStrField_of_none hdn,
      optStrField_of_none hwu, reqDTField_of_parse hj hp, optDTField_of_none hlm]

/-- Counterexample for C6 as stated: a raw site-info object whose required
identity field is present but is a number — not a string — still validates
(pydantic v1 coerces it with `str(...)`), contradicting "construction fails
... when a required field is present but of the wrong type (identity field
not a string)". -/
theorem c6_wrong_type_counterexample :
    GetSiteInfo.validate c6_input = .ok ⟨"5", none, none, none, dt20240101, none⟩ :=
  rfl

/-- Witness for C6 (amended) at concrete inputs: a missing identity field and
a malformed timestamp each fail with the matching error; a well-typed minimal
object validates with null optionals. -/
theorem c6_required_fields_witness :
    (∃ es, GetSiteInfo.validate
        [("createdDateTime", .str "2024-01-01T00:00:00Z")] =
        .error (.fieldErrors es) ∧ ValErr.missing "id" ∈ es) ∧
    (∃ es, GetSiteInfo.validate [("id", .str "x")] =
        .error (.fieldErrors es) ∧ ValErr.missing "created_date_time" ∈ es) ∧
    (∃ es, GetSiteInfo.validate
        [("id", .str "x"), ("createdDateTime", .str "not-a-date")] =
        .error (.fieldErrors es) ∧
        ValErr.datetimeType "created_date_time" ∈ es) ∧
    GetSiteInfo.validate
        [("id", .str "site1"), ("createdDateTime", .str "2024-01-01T00:00:00Z")] =
      .ok ⟨"site1", none, none, none, dt20240101, none⟩ :=
  ⟨c6_required_fields.1 [("createdDateTime", .str "2024-01-01T00:00:00Z")] rfl,
   c6_required_fields.2.1 [("id", .str "x")] rfl,
   c6_required_fields.2.2.2.2.2.1
     [("id", .str "x"), ("createdDateTime", .str "not-a-date")] "not-a-date"
     rfl rfl rfl rfl,
   c6_required_fields.2.2.2.2.2.2
     [("id", .str "site1"), ("createdDateTime", .str "2024-01-01T00:00:00Z")]
     "site1" (.str "2024-01-01T00:00:00Z") dt20240101 rfl rfl rfl rfl rfl rfl rfl⟩

end Sharepointlib
